import Mathlib

/-!
Shallow embedding of `server/webhook.go` from the bytebase repository:
the GitLab push-webhook handler registered by `registerWebhookRoutes`.

External collaborators (JSON unmarshalling, repository lookup, the
migration-path parser `db.ParseMigrationInfo`, the GitLab raw-file fetch,
database lookup, approval-policy lookup, issue creation, activity
creation, JSON marshalling of activity payloads, RFC3339 timestamp
parsing and the compiled schema-path regular expression) live outside
this file's source and are modelled as deterministic oracles collected
in a `Ctx` record.  Everything else in this file is a line-by-line
translation of `registerWebhookRoutes`.
-/

namespace Bytebase

/-- Commit as delivered in the GitLab push payload (`gitlab.WebhookCommit`). -/
structure Commit where
  id : String
  title : String
  message : String
  authorName : String
  timestamp : String
  url : String
  addedList : List String
  deriving Repr, DecidableEq

/-- Project block of the GitLab push payload. -/
structure PushProject where
  id : Int
  webURL : String
  fullPath : String
  deriving Repr, DecidableEq

/-- The push event (`gitlab.WebhookPushEvent`). -/
structure WebhookPushEvent where
  objectKind : String
  ref : String
  project : PushProject
  authorName : String
  commitList : List Commit
  deriving Repr, DecidableEq

/-- The constant `gitlab.WebhookPush`. -/
def WebhookPush : String := "push"

/-- An environment record (`api.Environment`), as hydrated on an instance. -/
structure Environment where
  id : Int
  name : String
  deriving Repr, DecidableEq

/-- The slice of `api.Instance` used by the handler: the raw environment id
column and the hydrated environment relationship. -/
structure Instance where
  environmentId : Int
  environment : Environment
  deriving Repr, DecidableEq

/-- The slice of `api.Database` used by the handler (`inst` models the
`Instance` relationship field, `instance` being a Lean keyword). -/
structure Database where
  id : Int
  instanceId : Int
  name : String
  inst : Instance
  deriving Repr, DecidableEq

/-- The slice of `api.Repository` used by the handler, with the VCS
relationship flattened into the fields the handler reads. -/
structure Repository where
  projectId : Int
  name : String
  externalId : String
  webhookSecretToken : String
  baseDirectory : String
  filePathTemplate : String
  schemaPathTemplate : String
  vcsType : String
  vcsInstanceURL : String
  accessToken : String
  deriving Repr, DecidableEq

/-- Result of `db.ParseMigrationInfo`: the migration descriptor. -/
structure MigrationInfo where
  database : String
  environment : String
  type : String
  description : String
  deriving Repr, DecidableEq

/-- `common.VCSFileCommit`. -/
structure VCSFileCommit where
  id : String
  title : String
  message : String
  createdTs : Int
  url : String
  authorName : String
  added : String
  deriving Repr, DecidableEq

/-- `common.VCSPushEvent`. -/
structure VCSPushEvent where
  vcsType : String
  baseDirectory : String
  ref : String
  repositoryID : String
  repositoryURL : String
  repositoryFullPath : String
  authorName : String
  fileCommit : VCSFileCommit
  deriving Repr, DecidableEq

/-- `api.ActivityProjectRepositoryPushPayload`; `issueId`/`issueName` keep
their Go zero values in the ignored-file payload. -/
structure ActivityProjectRepositoryPushPayload where
  vcsPushEvent : VCSPushEvent
  issueId : Int := 0
  issueName : String := ""
  deriving Repr, DecidableEq

/-- Activity levels `api.ACTIVITY_INFO` / `api.ACTIVITY_WARN`. -/
inductive ActivityLevel where
  | info
  | warn
  deriving Repr, DecidableEq

/-- `api.ActivityCreate` as filled in by the handler. -/
structure ActivityCreate where
  creatorId : Int
  containerId : Int
  type : String
  level : ActivityLevel
  comment : String
  payload : String
  deriving Repr, DecidableEq

/-- Task statuses `api.TaskPendingApproval` / `api.TaskPending`. -/
inductive TaskStatus where
  | pendingApproval
  | pending
  deriving Repr, DecidableEq

/-- `api.TaskCreate` as filled in by the handler (the `DatabaseId` pointer
is modelled by the plain id). -/
structure TaskCreate where
  instanceId : Int
  databaseId : Int
  name : String
  status : TaskStatus
  type : String
  statement : String
  vcsPushEvent : VCSPushEvent
  migrationType : String
  deriving Repr, DecidableEq

/-- `api.StageCreate`. -/
structure StageCreate where
  environmentId : Int
  taskList : List TaskCreate
  name : String
  deriving Repr, DecidableEq

/-- `api.PipelineCreate`. -/
structure PipelineCreate where
  stageList : List StageCreate
  name : String
  deriving Repr, DecidableEq

/-- `api.IssueCreate`. -/
structure IssueCreate where
  projectId : Int
  pipeline : PipelineCreate
  name : String
  type : String
  description : String
  assigneeId : Int
  deriving Repr, DecidableEq

/-- The slice of the created `api.Issue` the handler reads back. -/
structure Issue where
  id : Int
  name : String
  deriving Repr, DecidableEq

/-- `api.SYSTEM_BOT_ID`. -/
def SYSTEM_BOT_ID : Int := 1

/-- `api.ActivityProjectRepositoryPush`. -/
def ActivityProjectRepositoryPush : String := "bb.project.repository.push"

/-- `api.TaskDatabaseSchemaUpdate`. -/
def TaskDatabaseSchemaUpdate : String := "bb.task.database.schema.update"

/-- `api.IssueDatabaseSchemaUpdate`. -/
def IssueDatabaseSchemaUpdate : String := "bb.issue.database.schema.update"

/-- `api.PipelineApprovalValueManualNever`. -/
def PipelineApprovalValueManualNever : String := "MANUAL_APPROVAL_NEVER"

/-- `time.Time` zero value's `Unix()` seconds, produced when
`time.Parse` fails and the zero `createdTime` is used anyway. -/
def goZeroTimeUnix : Int := -62135596800

/-- Result of `s.RepositoryService.FindRepository`. -/
inductive FindRepoResult where
  | found (r : Repository)
  | notFound
  | err (msg : String)
  deriving Repr

/-- Oracles for every external collaborator the handler calls.  Each is a
pure deterministic function; fallible calls return `Except`. -/
structure Ctx where
  /-- `io.ReadAll(c.Request().Body)`. -/
  readRequestBody : Except String String
  /-- `json.Unmarshal` of the body into `gitlab.WebhookPushEvent`. -/
  unmarshalPushEvent : String → Except String WebhookPushEvent
  /-- `s.RepositoryService.FindRepository` keyed by webhook endpoint id. -/
  findRepository : String → FindRepoResult
  /-- `s.ComposeRepositoryRelationship`, returning the hydrated repository. -/
  composeRepositoryRelationship : Repository → Except String Repository
  /-- `time.Parse(time.RFC3339, commit.Timestamp)` as Unix seconds. -/
  parseTimestamp : String → Option Int
  /-- `regexp.Compile` of the substituted schema-path pattern followed by
  `MatchString` on the candidate path. -/
  schemaRegexMatch : String → String → Bool
  /-- `db.ParseMigrationInfo(added, template)`. -/
  parseMigrationInfo : String → String → Except String MigrationInfo
  /-- `gitlab.GET` of the raw file at (path, commit id) followed by
  `io.ReadAll` of the response body; either failure is the error case. -/
  fetchFileContent : String → String → Except String String
  /-- `s.ComposeDatabaseListByFind` keyed by (project id, database name). -/
  composeDatabaseListByFind : Int → String → Except String (List Database)
  /-- `s.PolicyService.GetPipelineApprovalPolicy` keyed by environment id,
  returning the policy value. -/
  getPipelineApprovalPolicy : Int → Except String String
  /-- `s.CreateIssue`. -/
  createIssue : IssueCreate → Except String Issue
  /-- `json.Marshal` of an `ActivityProjectRepositoryPushPayload`. -/
  marshalPushPayload : ActivityProjectRepositoryPushPayload → Except String String
  /-- `s.ActivityManager.CreateActivity`. -/
  createActivity : ActivityCreate → Except String Unit

/-- Whether an `Except` is the success case. -/
def isOk {ε α : Type} : Except ε α → Bool
  | .ok _ => true
  | .error _ => false

/-- `filepath.Join` restricted to the shapes the handler feeds it. -/
def filepathJoin (a b : String) : String :=
  if a = "" then b else if b = "" then a else a ++ "/" ++ b

/-- `strings.HasPrefix`, as a character-list prefix test. -/
def strHasPrefix (s pre : String) : Bool :=
  pre.data.isPrefixOf s.data

/-- ASCII lowering of one code point. -/
def lowerNat (n : Nat) : Nat :=
  if 65 ≤ n ∧ n ≤ 90 then n + 32 else n

/-- `strings.EqualFold` (ASCII-adequate model): equality of the
case-lowered code-point sequences. -/
def eqFold (a b : String) : Bool :=
  a.data.map (fun c => lowerNat c.toNat) == b.data.map (fun c => lowerNat c.toNat)

/-- The substitution loop over `placeholderList`: each `\x7b\x7bNAME\x7d\x7d`
placeholder of the schema path template is replaced by a permissive named
capture group, yielding the pattern handed to `regexp.Compile`. -/
def schemafilePathRegex (tmpl : String) : String :=
  (tmpl.replace "\x7b\x7bENV_NAME\x7d\x7d" "(?P<ENV_NAME>[a-zA-Z0-9+-=/_#?!$. ]+)").replace
    "\x7b\x7bDB_NAME\x7d\x7d" "(?P<DB_NAME>[a-zA-Z0-9+-=/_#?!$. ]+)"

/-- Lookup in an association list modelling a Go `map[int]`. -/
def alistLookup {α : Type} (l : List (Int × α)) (k : Int) : Option α :=
  (l.find? (fun p => p.1 == k)).map (fun p => p.2)

/-- Insert into the `databaseListByEnv` map: append to the existing bucket,
or start a fresh one. -/
def dbenvAdd (m : List (Int × List Database)) (k : Int) (d : Database) :
    List (Int × List Database) :=
  match alistLookup m k with
  | some _ => m.map (fun p => if p.1 == k then (p.1, p.2 ++ [d]) else p)
  | none => m ++ [(k, [d])]

/-- Outcome of one added file's processing pass: `skipped` models a Go
`continue` of the file loop, `created` carries the response line appended
to `createdMessageList`, `aborted` models an early `return` of an HTTP
error from inside the loop. -/
inductive FileStep where
  | skipped
  | created (message : String)
  | aborted (status : Nat) (body : String)
  deriving Repr, DecidableEq

/-- Side effects of one added file's processing pass: every
`CreateActivity` call issued, every `CreateIssue` call issued, and the
issues actually created. -/
structure FileOut where
  step : FileStep
  activityCalls : List ActivityCreate
  issueCalls : List IssueCreate
  issuesCreated : List Issue
  deriving Repr, DecidableEq

/-- The `vcsPushEvent` value assembled for one (commit, added file) pair. -/
def vcsPushEventOf (ctx : Ctx) (repository : Repository)
    (pushEvent : WebhookPushEvent) (commit : Commit) (added : String) :
    VCSPushEvent :=
  { vcsType := repository.vcsType
    baseDirectory := repository.baseDirectory
    ref := pushEvent.ref
    repositoryID := toString pushEvent.project.id
    repositoryURL := pushEvent.project.webURL
    repositoryFullPath := pushEvent.project.fullPath
    authorName := pushEvent.authorName
    fileCommit :=
      { id := commit.id
        title := commit.title
        message := commit.message
        createdTs := (ctx.parseTimestamp commit.timestamp).getD goZeroTimeUnix
        url := commit.url
        authorName := commit.authorName
        added := added } }

/-- The closure `createIgnoredFileActivity`: returns the list of
`CreateActivity` calls it issues (empty when marshalling the payload
fails; the result of the call itself is discarded either way). -/
def createIgnoredFileActivity (ctx : Ctx) (repository : Repository)
    (vcsPushEvent : VCSPushEvent) (added : String) (errMsg : String) :
    List ActivityCreate :=
  match ctx.marshalPushPayload { vcsPushEvent := vcsPushEvent } with
  | .error _ => []
  | .ok bytes =>
    [{ creatorId := SYSTEM_BOT_ID
       containerId := repository.projectId
       type := ActivityProjectRepositoryPush
       level := ActivityLevel.warn
       comment := "Ignored committed file \"" ++ added ++ "\", " ++ errMsg ++ "."
       payload := bytes }]

/-- The environment filter applied when the migration descriptor names an
environment (`filterdDatabaseList` keeps the source's spelling). -/
def filterdDatabaseList (databaseList : List Database) (mi : MigrationInfo) :
    List Database :=
  if mi.environment != "" then
    databaseList.filter
      (fun database => eqFold database.inst.environment.name mi.environment)
  else databaseList

/-- State threaded through the loop that groups the filtered databases by
environment id and loads the per-environment approval policy. -/
structure PolicyPass where
  databaseListByEnv : List (Int × List Database)
  pipelineApprovalByEnv : List (Int × String)
  warnCalls : List ActivityCreate
  deriving Repr, DecidableEq

/-- One iteration of the grouping/policy-loading loop.  A policy-lookup
failure issues the ignored-file WARN activity and `continue`s this inner
loop — the file loop keeps going, mirroring the source exactly. -/
def loadPoliciesStep (ctx : Ctx) (warnActivity : String → List ActivityCreate)
    (st : PolicyPass) (database : Database) : PolicyPass :=
  match alistLookup st.pipelineApprovalByEnv database.inst.environmentId with
  | some _ =>
    { st with
      databaseListByEnv :=
        dbenvAdd st.databaseListByEnv database.inst.environmentId database }
  | none =>
    match ctx.getPipelineApprovalPolicy database.inst.environmentId with
    | .error _ =>
      { st with
        databaseListByEnv :=
          dbenvAdd st.databaseListByEnv database.inst.environmentId database
        warnCalls := st.warnCalls ++
          warnActivity ("failed to find pipeline approval policy for environment " ++
            toString database.inst.environmentId) }
    | .ok v =>
      { st with
        databaseListByEnv :=
          dbenvAdd st.databaseListByEnv database.inst.environmentId database
        pipelineApprovalByEnv :=
          st.pipelineApprovalByEnv ++ [(database.inst.environmentId, v)] }

/-- The whole grouping/policy-loading loop over the filtered list. -/
def loadPolicies (ctx : Ctx) (warnActivity : String → List ActivityCreate)
    (filterd : List Database) : PolicyPass :=
  filterd.foldl (loadPoliciesStep ctx warnActivity)
    { databaseListByEnv := [], pipelineApprovalByEnv := [], warnCalls := [] }

/-- The update the loop applies to `pipelineApprovalByEnv` alone for one
database (used to reason about the loop; extensionally the
`pipelineApprovalByEnv` component of `loadPoliciesStep`). -/
def pappUpd (ctx : Ctx) (papp : List (Int × String)) (database : Database) :
    List (Int × String) :=
  match alistLookup papp database.inst.environmentId with
  | some _ => papp
  | none =>
    match ctx.getPipelineApprovalPolicy database.inst.environmentId with
    | .error _ => papp
    | .ok v => papp ++ [(database.inst.environmentId, v)]

/-- Stage construction for one resolved database: the task status is the
auto-run `pending` exactly when the approval map at the database's hydrated
environment id holds `MANUAL_APPROVAL_NEVER` (a missing key reads as the Go
zero value `""`). -/
def mkTask (pipelineApprovalByEnv : List (Int × String)) (mi : MigrationInfo)
    (content : String) (vcsPushEvent : VCSPushEvent) (database : Database) :
    TaskCreate :=
  { instanceId := database.instanceId
    databaseId := database.id
    name := mi.description
    status :=
      if (alistLookup pipelineApprovalByEnv database.inst.environment.id).getD "" ==
          PipelineApprovalValueManualNever then
        TaskStatus.pending
      else TaskStatus.pendingApproval
    type := TaskDatabaseSchemaUpdate
    statement := content
    vcsPushEvent := vcsPushEvent
    migrationType := mi.type }

def mkStage (pipelineApprovalByEnv : List (Int × String)) (mi : MigrationInfo)
    (content : String) (vcsPushEvent : VCSPushEvent) (database : Database) :
    StageCreate :=
  { environmentId := database.inst.environmentId
    taskList := [mkTask pipelineApprovalByEnv mi content vcsPushEvent database]
    name := database.inst.environment.name }

/-- The `IssueCreate` submitted for one file. -/
def issueCreateOf (repository : Repository) (commit : Commit)
    (stageList : List StageCreate) : IssueCreate :=
  { projectId := repository.projectId
    pipeline := { stageList := stageList, name := "Pipeline - " ++ commit.title }
    name := commit.title
    type := IssueDatabaseSchemaUpdate
    description := commit.message
    assigneeId := SYSTEM_BOT_ID }

/-- The INFO activity recorded after an issue is created. -/
def infoActivityCreate (repository : Repository) (issue : Issue)
    (bytes : String) : ActivityCreate :=
  { creatorId := SYSTEM_BOT_ID
    containerId := repository.projectId
    type := ActivityProjectRepositoryPush
    level := ActivityLevel.info
    comment := "Created issue \"" ++ issue.name ++ "\"."
    payload := bytes }

/-- The tail of the file loop once the target set resolved: submit the
issue-creation request, and on success record the INFO activity; a failure
to marshal or persist that activity escalates to an HTTP 500 `return`. -/
def issuePhase (ctx : Ctx) (repository : Repository)
    (vcsPushEvent : VCSPushEvent) (warnCalls : List ActivityCreate)
    (issueCreate : IssueCreate) (added : String) : FileOut :=
  match ctx.createIssue issueCreate with
  | .error _ =>
    { step := .skipped, activityCalls := warnCalls,
      issueCalls := [issueCreate], issuesCreated := [] }
  | .ok issue =>
    match ctx.marshalPushPayload
        { vcsPushEvent := vcsPushEvent, issueId := issue.id,
          issueName := issue.name } with
    | .error _ =>
      { step := .aborted 500 "Failed to construct activity payload",
        activityCalls := warnCalls,
        issueCalls := [issueCreate], issuesCreated := [issue] }
    | .ok bytes =>
      match ctx.createActivity (infoActivityCreate repository issue bytes) with
      | .error _ =>
        { step := .aborted 500
            ("Failed to create project activity after creating issue from repository push event: " ++
              toString issue.id),
          activityCalls := warnCalls ++ [infoActivityCreate repository issue bytes],
          issueCalls := [issueCreate], issuesCreated := [issue] }
      | .ok _ =>
        { step := .created ("Created issue \"" ++ issue.name ++ "\" on adding " ++ added),
          activityCalls := warnCalls ++ [infoActivityCreate repository issue bytes],
          issueCalls := [issueCreate], issuesCreated := [issue] }

/-- The WARN-activity emitter of one (commit, added file) pair. -/
def warnOf (ctx : Ctx) (repository : Repository) (pushEvent : WebhookPushEvent)
    (commit : Commit) (added : String) : String → List ActivityCreate :=
  createIgnoredFileActivity ctx repository
    (vcsPushEventOf ctx repository pushEvent commit added) added

/-- The grouping/policy pass of one pair, given the parsed descriptor and
the database list the lookup returned. -/
def passOf (ctx : Ctx) (repository : Repository) (pushEvent : WebhookPushEvent)
    (commit : Commit) (added : String) (mi : MigrationInfo)
    (dbs : List Database) : PolicyPass :=
  loadPolicies ctx (warnOf ctx repository pushEvent commit added)
    (filterdDatabaseList dbs mi)

/-- The issue-creation request submitted for one resolved pair. -/
def resolvedIssueCreate (ctx : Ctx) (repository : Repository)
    (pushEvent : WebhookPushEvent) (commit : Commit) (added : String)
    (mi : MigrationInfo) (content : String) (dbs : List Database) : IssueCreate :=
  issueCreateOf repository commit
    ((filterdDatabaseList dbs mi).map
      (mkStage (passOf ctx repository pushEvent commit added mi dbs).pipelineApprovalByEnv
        mi content (vcsPushEventOf ctx repository pushEvent commit added)))

/-- The file outcome with no side effects at all. -/
def emptyFileOut : FileOut :=
  { step := .skipped, activityCalls := [], issueCalls := [], issuesCreated := [] }

/-- Processing of one added file of one commit: the body of the inner
`for _, added := range commit.AddedList` loop. -/
def processFile (ctx : Ctx) (repository : Repository)
    (pushEvent : WebhookPushEvent) (commit : Commit) (added : String) :
    FileOut :=
  if !(strHasPrefix added repository.baseDirectory) then
    { step := .skipped, activityCalls := [], issueCalls := [], issuesCreated := [] }
  else if repository.schemaPathTemplate != "" &&
      ctx.schemaRegexMatch (schemafilePathRegex repository.schemaPathTemplate) added then
    { step := .skipped, activityCalls := [], issueCalls := [], issuesCreated := [] }
  else
    let vcsPushEvent := vcsPushEventOf ctx repository pushEvent commit added
    let warnActivity := createIgnoredFileActivity ctx repository vcsPushEvent added
    match ctx.parseMigrationInfo added
        (filepathJoin repository.baseDirectory repository.filePathTemplate) with
    | .error e =>
      { step := .skipped, activityCalls := warnActivity e,
        issueCalls := [], issuesCreated := [] }
    | .ok mi =>
      match ctx.fetchFileContent added commit.id with
      | .error e =>
        { step := .skipped, activityCalls := warnActivity ("failed to read file: " ++ e),
          issueCalls := [], issuesCreated := [] }
      | .ok content =>
        match ctx.composeDatabaseListByFind repository.projectId mi.database with
        | .error _ =>
          { step := .skipped,
            activityCalls := warnActivity
              ("failed to find database matching database \"" ++ mi.database ++
                "\" referenced by the committed file"),
            issueCalls := [], issuesCreated := [] }
        | .ok databaseList =>
          if databaseList.isEmpty then
            { step := .skipped,
              activityCalls := warnActivity
                ("project ID " ++ toString repository.projectId ++
                  " does not own database \"" ++ mi.database ++
                  "\" referenced by the committed file"),
              issueCalls := [], issuesCreated := [] }
          else
            let filterd := filterdDatabaseList databaseList mi
            if mi.environment != "" && filterd.isEmpty then
              { step := .skipped,
                activityCalls := warnActivity
                  ("project does not contain committed file database \"" ++
                    mi.database ++ "\" for environment \"" ++ mi.environment ++ "\""),
                issueCalls := [], issuesCreated := [] }
            else
              let pass := loadPolicies ctx warnActivity filterd
              if pass.databaseListByEnv.any (fun p => p.2.length > 1) then
                { step := .skipped, activityCalls := pass.warnCalls,
                  issueCalls := [], issuesCreated := [] }
              else
                let stageList :=
                  filterd.map (mkStage pass.pipelineApprovalByEnv mi content vcsPushEvent)
                issuePhase ctx repository vcsPushEvent pass.warnCalls
                  (issueCreateOf repository commit stageList) added

/-- Accumulated state of the commit/file loops. -/
structure RunAcc where
  createdMessageList : List String
  activityCalls : List ActivityCreate
  issueCalls : List IssueCreate
  issuesCreated : List Issue
  aborted : Option (Nat × String)
  deriving Repr, DecidableEq

/-- The empty accumulator at loop entry. -/
def emptyAcc : RunAcc :=
  { createdMessageList := [], activityCalls := [], issueCalls := [],
    issuesCreated := [], aborted := none }

/-- Merge one file's outcome into the accumulator. -/
def stepAcc (acc : RunAcc) (o : FileOut) : RunAcc :=
  let base :=
    { acc with
      activityCalls := acc.activityCalls ++ o.activityCalls
      issueCalls := acc.issueCalls ++ o.issueCalls
      issuesCreated := acc.issuesCreated ++ o.issuesCreated }
  match o.step with
  | .skipped => base
  | .created m => { base with createdMessageList := base.createdMessageList ++ [m] }
  | .aborted status body => { base with aborted := some (status, body) }

/-- The inner loop over `commit.AddedList`; an abort (the handler's early
`return`) stops all further processing. -/
def foldFiles (ctx : Ctx) (repository : Repository)
    (pushEvent : WebhookPushEvent) (commit : Commit) :
    List String → RunAcc → RunAcc
  | [], acc => acc
  | added :: rest, acc =>
    match acc.aborted with
    | some _ => acc
    | none =>
      foldFiles ctx repository pushEvent commit rest
        (stepAcc acc (processFile ctx repository pushEvent commit added))

/-- The outer loop over `pushEvent.CommitList`. -/
def foldCommits (ctx : Ctx) (repository : Repository)
    (pushEvent : WebhookPushEvent) : List Commit → RunAcc → RunAcc
  | [], acc => acc
  | commit :: rest, acc =>
    match acc.aborted with
    | some _ => acc
    | none =>
      foldCommits ctx repository pushEvent rest
        (foldFiles ctx repository pushEvent commit commit.addedList acc)

/-- The inbound HTTP request: the webhook endpoint id from the URL path and
the `X-Gitlab-Token` header. -/
structure Request where
  webhookEndpointId : String
  gitlabToken : String
  deriving Repr, DecidableEq

/-- An HTTP response: status code and body. -/
structure HTTPResponse where
  status : Nat
  body : String
  deriving Repr, DecidableEq

/-- The whole observable outcome of one webhook delivery. -/
structure RunResult where
  response : HTTPResponse
  activityCalls : List ActivityCreate
  issueCalls : List IssueCreate
  issuesCreated : List Issue
  deriving Repr, DecidableEq

/-- Agreement of two loop accumulators on everything except the recorded
activity calls (used to show WARN-activity failures are invisible). -/
def accRel (acc acc' : RunAcc) : Prop :=
  acc.createdMessageList = acc'.createdMessageList ∧
  acc.issueCalls = acc'.issueCalls ∧
  acc.issuesCreated = acc'.issuesCreated ∧
  acc.aborted = acc'.aborted

/-- A run result that performed no side effects. -/
def errorResult (status : Nat) (body : String) : RunResult :=
  { response := { status := status, body := body },
    activityCalls := [], issueCalls := [], issuesCreated := [] }

/-- The `POST /hook/gitlab/:id` handler body registered by
`registerWebhookRoutes`, from reading the request body down to the final
`c.String(http.StatusOK, strings.Join(createdMessageList, "\n"))`. -/
def handleWebhook (ctx : Ctx) (req : Request) : RunResult :=
  match ctx.readRequestBody with
  | .error _ => errorResult 400 "Failed to read webhook request"
  | .ok b =>
    match ctx.unmarshalPushEvent b with
    | .error _ => errorResult 400 "Malformatted push event"
    | .ok pushEvent =>
      if pushEvent.objectKind != WebhookPush then
        errorResult 400
          ("Invalid webhook event type, got " ++ pushEvent.objectKind ++ ", want push")
      else
        match ctx.findRepository req.webhookEndpointId with
        | .notFound =>
          errorResult 404 ("Endpoint not found: " ++ req.webhookEndpointId)
        | .err _ =>
          errorResult 500
            ("Failed to respond webhook event for endpoint: " ++ req.webhookEndpointId)
        | .found repository0 =>
          match ctx.composeRepositoryRelationship repository0 with
          | .error _ =>
            errorResult 500
              ("Failed to fetch repository relationship: " ++ repository0.name)
          | .ok repository =>
            if req.gitlabToken != repository.webhookSecretToken then
              errorResult 400 "Secret token mismatch"
            else if toString pushEvent.project.id != repository.externalId then
              errorResult 400
                ("Project mismatch, got " ++ toString pushEvent.project.id ++
                  ", want " ++ repository.externalId)
            else
              let acc := foldCommits ctx repository pushEvent pushEvent.commitList emptyAcc
              match acc.aborted with
              | some (status, body) =>
                { response := { status := status, body := body },
                  activityCalls := acc.activityCalls,
                  issueCalls := acc.issueCalls,
                  issuesCreated := acc.issuesCreated }
              | none =>
                { response :=
                    { status := 200,
                      body := String.intercalate "\n" acc.createdMessageList },
                  activityCalls := acc.activityCalls,
                  issueCalls := acc.issueCalls,
                  issuesCreated := acc.issuesCreated }

/-- Grouping of the filtered database list by raw environment id, exactly
as the interleaved loop builds `databaseListByEnv`. -/
def groupByEnv (filterd : List Database) : List (Int × List Database) :=
  filterd.foldl (fun m database => dbenvAdd m database.inst.environmentId database) []

/-- Declarative resolution predicate for one (commit, added file) pair: the
file is under the base directory, is not a schema-dump artifact, parses as a
migration, its content fetch succeeds, the project owns a database of that
name, the optional environment filter leaves a candidate, and no environment
bucket holds two databases.  These are exactly the conditions under which
the handler reaches issue creation. -/
def fileResolves (ctx : Ctx) (repository : Repository) (commit : Commit)
    (added : String) : Bool :=
  strHasPrefix added repository.baseDirectory &&
  !(repository.schemaPathTemplate != "" &&
      ctx.schemaRegexMatch (schemafilePathRegex repository.schemaPathTemplate) added) &&
  (match ctx.parseMigrationInfo added
      (filepathJoin repository.baseDirectory repository.filePathTemplate) with
   | .error _ => false
   | .ok mi =>
     (match ctx.fetchFileContent added commit.id with
      | .error _ => false
      | .ok _ =>
        (match ctx.composeDatabaseListByFind repository.projectId mi.database with
         | .error _ => false
         | .ok databaseList =>
           !databaseList.isEmpty &&
           !(mi.environment != "" && (filterdDatabaseList databaseList mi).isEmpty) &&
           !((groupByEnv (filterdDatabaseList databaseList mi)).any
               (fun p => p.2.length > 1)))))

/-- The response line one file contributes, when it contributes one. -/
def fileMessage (ctx : Ctx) (repository : Repository)
    (pushEvent : WebhookPushEvent) (commit : Commit) (added : String) :
    Option String :=
  match (processFile ctx repository pushEvent commit added).step with
  | .created m => some m
  | _ => none

/-- All (commit, added file) pairs of a commit list, in processing order. -/
def pushPairsList (commits : List Commit) : List (Commit × String) :=
  commits.foldr
    (fun commit acc => commit.addedList.map (fun added => (commit, added)) ++ acc) []

/-- All (commit, added file) pairs of a push event, in processing order. -/
def pushPairs (pushEvent : WebhookPushEvent) : List (Commit × String) :=
  pushPairsList pushEvent.commitList

/-- Concatenation of a list of lists. -/
def listCat {α : Type} (l : List (List α)) : List α :=
  l.foldr (fun x acc => x ++ acc) []

/-- The response lines contributed by a list of pairs, in order. -/
def pairsMessages (ctx : Ctx) (repository : Repository)
    (pushEvent : WebhookPushEvent) (ps : List (Commit × String)) : List String :=
  ps.filterMap (fun p => fileMessage ctx repository pushEvent p.1 p.2)

/-- All activity-creation calls issued while processing a list of pairs. -/
def pairsActivityCalls (ctx : Ctx) (repository : Repository)
    (pushEvent : WebhookPushEvent) (ps : List (Commit × String)) :
    List ActivityCreate :=
  listCat (ps.map (fun p => (processFile ctx repository pushEvent p.1 p.2).activityCalls))

/-- All issue-creation calls issued while processing a list of pairs. -/
def pairsIssueCalls (ctx : Ctx) (repository : Repository)
    (pushEvent : WebhookPushEvent) (ps : List (Commit × String)) :
    List IssueCreate :=
  listCat (ps.map (fun p => (processFile ctx repository pushEvent p.1 p.2).issueCalls))

/-- All issues created while processing a list of pairs. -/
def pairsIssuesCreated (ctx : Ctx) (repository : Repository)
    (pushEvent : WebhookPushEvent) (ps : List (Commit × String)) : List Issue :=
  listCat (ps.map (fun p => (processFile ctx repository pushEvent p.1 p.2).issuesCreated))

/-! Concrete fixtures used by witnesses and counterexamples. -/

/-- A database named `db1` on instance 2 in environment 1 (`prod`). -/
def db1 : Database :=
  { id := 21, instanceId := 2, name := "db1",
    inst := { environmentId := 1, environment := { id := 1, name := "prod" } } }

/-- A second database also named `db1` in environment 1: the ambiguity twin. -/
def db1b : Database :=
  { id := 22, instanceId := 3, name := "db1",
    inst := { environmentId := 1, environment := { id := 1, name := "prod" } } }

/-- A database named `db1` in environment 2 (`dev`). -/
def db1dev : Database :=
  { id := 23, instanceId := 4, name := "db1",
    inst := { environmentId := 2, environment := { id := 2, name := "dev" } } }

/-- The repository configuration of the fixtures. -/
def repoFix : Repository :=
  { projectId := 5, name := "repo", externalId := "10",
    webhookSecretToken := "tok", baseDirectory := "db",
    filePathTemplate := "tmpl", schemaPathTemplate := "",
    vcsType := "GITLAB_SELF_HOST", vcsInstanceURL := "https://gitlab.example.com",
    accessToken := "at" }

/-- The commit of the fixtures, adding one migration file. -/
def commitFix : Commit :=
  { id := "c1", title := "T", message := "M", authorName := "alice",
    timestamp := "2021-07-01T00:00:00Z", url := "cu",
    addedList := ["db/v1__db1"] }

/-- The push event of the fixtures. -/
def eventFix : WebhookPushEvent :=
  { objectKind := "push", ref := "refs/heads/main",
    project := { id := 10, webURL := "wu", fullPath := "grp/repo" },
    authorName := "alice", commitList := [commitFix] }

/-- The migration descriptor the parse oracle of the fixtures returns. -/
def miFix : MigrationInfo :=
  { database := "db1", environment := "", type := "MIGRATE", description := "add column" }

/-- A context in which every external collaborator succeeds and the project
owns exactly `db1`. -/
def ctxFix : Ctx :=
  { readRequestBody := .ok "body"
    unmarshalPushEvent := fun _ => .ok eventFix
    findRepository := fun _ => .found repoFix
    composeRepositoryRelationship := fun r => .ok r
    parseTimestamp := fun _ => some 1625097600
    schemaRegexMatch := fun _ _ => false
    parseMigrationInfo := fun _ _ => .ok miFix
    fetchFileContent := fun _ _ => .ok "CREATE TABLE t (c INT);"
    composeDatabaseListByFind := fun _ _ => .ok [db1]
    getPipelineApprovalPolicy := fun _ => .ok "MANUAL_APPROVAL_ALWAYS"
    createIssue := fun ic => .ok { id := 7, name := ic.name }
    marshalPushPayload := fun _ => .ok "payload"
    createActivity := fun _ => .ok () }

/-- The request matching `repoFix`. -/
def reqFix : Request := { webhookEndpointId := "ep1", gitlabToken := "tok" }

/-- `ctxFix` with two same-name databases in the same environment. -/
def ctxAmb : Ctx :=
  { ctxFix with composeDatabaseListByFind := fun _ _ => .ok [db1, db1b] }

/-- `ctxFix` with two ambiguous databases and a failing policy lookup. -/
def ctxAmbPolFail : Ctx :=
  { ctxFix with
    composeDatabaseListByFind := fun _ _ => .ok [db1, db1b]
    getPipelineApprovalPolicy := fun _ => .error "policy backend down" }

/-- `ctxFix` with a failing approval-policy lookup. -/
def ctxPolFail : Ctx :=
  { ctxFix with getPipelineApprovalPolicy := fun _ => .error "policy backend down" }

/-- `ctxFix` with a failing issue-creation call. -/
def ctxIssueFail : Ctx :=
  { ctxFix with createIssue := fun _ => .error "issue backend down" }

/-- `ctxFix` in which every payload marshalling fails. -/
def ctxMarshalFail : Ctx :=
  { ctxFix with marshalPushPayload := fun _ => .error "marshal failed" }

/-- `ctxFix` in which only the ignored-file payload marshalling (issue id
zero) fails. -/
def ctxWarnMarshalFail : Ctx :=
  { ctxFix with
    marshalPushPayload := fun p =>
      if p.issueId == 0 then .error "marshal failed" else .ok "payload" }

/-- `ctxFix` in which the INFO success activity fails to persist. -/
def ctxActFail : Ctx :=
  { ctxFix with createActivity := fun _ => .error "activity backend down" }

/-- `repoFix` with a schema-dump path template configured. -/
def repoSchema : Repository :=
  { repoFix with schemaPathTemplate := "db/schema.sql" }

/-- Context for the classifier fixtures: the schema-dump matcher accepts
exactly `db/schema.sql` and the migration-path parser accepts exactly
`db/v1__db1`. -/
def ctxClassify : Ctx :=
  { ctxFix with
    schemaRegexMatch := fun _ path => path == "db/schema.sql"
    parseMigrationInfo := fun path _ =>
      if path == "db/v1__db1" then .ok miFix else .error "invalid migration format" }

/-- `ctxFix` delivering a non-push event kind. -/
def ctxBadKind : Ctx :=
  { ctxFix with
    unmarshalPushEvent := fun _ => .ok { eventFix with objectKind := "tag_push" } }

/-! Helper lemmas about the embedded operations. -/

theorem isOk_iff {ε α : Type} (x : Except ε α) :
    isOk x = true ↔ ∃ a, x = Except.ok a := by
  cases x <;> simp [isOk]

theorem listCat_nil {α : Type} : listCat ([] : List (List α)) = [] := rfl

theorem listCat_cons {α : Type} (x : List α) (xs : List (List α)) :
    listCat (x :: xs) = x ++ listCat xs := rfl

theorem listCat_append {α : Type} (xs ys : List (List α)) :
    listCat (xs ++ ys) = listCat xs ++ listCat ys := by
  induction xs with
  | nil => simp [listCat]
  | cons x xs ih => simp [listCat_cons, ih, List.append_assoc]

theorem alistLookup_append_or {α : Type} (m m' : List (Int × α)) (e : Int) :
    alistLookup (m ++ m') e = (alistLookup m e).or (alistLookup m' e) := by
  unfold alistLookup
  rw [List.find?_append]
  cases h : m.find? (fun p => p.1 == e) <;> simp [Option.or]

theorem alistLookup_append_some {α : Type} (m m' : List (Int × α)) (e : Int)
    (v : α) (h : alistLookup m e = some v) :
    alistLookup (m ++ m') e = some v := by
  rw [alistLookup_append_or, h]; rfl

theorem alistLookup_append_none {α : Type} (m m' : List (Int × α)) (e : Int)
    (h : alistLookup m e = none) :
    alistLookup (m ++ m') e = alistLookup m' e := by
  rw [alistLookup_append_or, h]; rfl

theorem alistLookup_single {α : Type} (k e : Int) (v : α) :
    alistLookup [(k, v)] e = if k == e then some v else none := by
  unfold alistLookup
  cases h : (k == e) <;> simp [List.find?, h]

theorem loadPoliciesStep_dbenv (ctx : Ctx) (w : String → List ActivityCreate)
    (st : PolicyPass) (d : Database) :
    (loadPoliciesStep ctx w st d).databaseListByEnv =
      dbenvAdd st.databaseListByEnv d.inst.environmentId d := by
  unfold loadPoliciesStep
  cases h : alistLookup st.pipelineApprovalByEnv d.inst.environmentId
  · cases hp : ctx.getPipelineApprovalPolicy d.inst.environmentId <;> rfl
  · rfl

theorem loadPoliciesStep_papp (ctx : Ctx) (w : String → List ActivityCreate)
    (st : PolicyPass) (d : Database) :
    (loadPoliciesStep ctx w st d).pipelineApprovalByEnv =
      pappUpd ctx st.pipelineApprovalByEnv d := by
  unfold loadPoliciesStep pappUpd
  cases h : alistLookup st.pipelineApprovalByEnv d.inst.environmentId
  · cases hp : ctx.getPipelineApprovalPolicy d.inst.environmentId <;> rfl
  · rfl

theorem loadPolicies_foldl_dbenv (ctx : Ctx) (w : String → List ActivityCreate)
    (l : List Database) : ∀ st : PolicyPass,
    (List.foldl (loadPoliciesStep ctx w) st l).databaseListByEnv =
      List.foldl (fun m d => dbenvAdd m d.inst.environmentId d)
        st.databaseListByEnv l := by
  induction l with
  | nil => intro st; rfl
  | cons d rest ih =>
    intro st
    rw [List.foldl_cons, List.foldl_cons, ih, loadPoliciesStep_dbenv]

theorem loadPolicies_dbenv (ctx : Ctx) (w : String → List ActivityCreate)
    (l : List Database) :
    (loadPolicies ctx w l).databaseListByEnv = groupByEnv l := by
  unfold loadPolicies groupByEnv
  exact loadPolicies_foldl_dbenv ctx w l _

theorem loadPolicies_foldl_papp (ctx : Ctx) (w : String → List ActivityCreate)
    (l : List Database) : ∀ st : PolicyPass,
    (List.foldl (loadPoliciesStep ctx w) st l).pipelineApprovalByEnv =
      List.foldl (pappUpd ctx) st.pipelineApprovalByEnv l := by
  induction l with
  | nil => intro st; rfl
  | cons d rest ih =>
    intro st
    rw [List.foldl_cons, List.foldl_cons, ih, loadPoliciesStep_papp]

theorem loadPolicies_papp (ctx : Ctx) (w : String → List ActivityCreate)
    (l : List Database) :
    (loadPolicies ctx w l).pipelineApprovalByEnv =
      List.foldl (pappUpd ctx) [] l := by
  unfold loadPolicies
  exact loadPolicies_foldl_papp ctx w l _

theorem loadPolicies_foldl_warnCalls (ctx : Ctx) (w : String → List ActivityCreate)
    (hpol : ∀ e, isOk (ctx.getPipelineApprovalPolicy e) = true)
    (l : List Database) : ∀ st : PolicyPass,
    (List.foldl (loadPoliciesStep ctx w) st l).warnCalls = st.warnCalls := by
  induction l with
  | nil => intro st; rfl
  | cons d rest ih =>
    intro st
    rw [List.foldl_cons, ih]
    unfold loadPoliciesStep
    obtain ⟨v, hv⟩ := (isOk_iff _).1 (hpol d.inst.environmentId)
    cases h : alistLookup st.pipelineApprovalByEnv d.inst.environmentId
    · rw [hv]
    · rfl

theorem loadPolicies_warnCalls (ctx : Ctx) (w : String → List ActivityCreate)
    (hpol : ∀ e, isOk (ctx.getPipelineApprovalPolicy e) = true)
    (l : List Database) : (loadPolicies ctx w l).warnCalls = [] := by
  unfold loadPolicies
  exact loadPolicies_foldl_warnCalls ctx w hpol l _

theorem pappUpd_lookup_some (ctx : Ctx) (papp : List (Int × String))
    (d : Database) (e : Int) (v : String) (h : alistLookup papp e = some v) :
    alistLookup (pappUpd ctx papp d) e = some v := by
  unfold pappUpd
  cases h1 : alistLookup papp d.inst.environmentId
  · cases hp : ctx.getPipelineApprovalPolicy d.inst.environmentId
    · exact h
    · exact alistLookup_append_some _ _ _ _ h
  · exact h

theorem pappFold_lookup_some (ctx : Ctx) (l : List Database) :
    ∀ (papp : List (Int × String)) (e : Int) (v : String),
    alistLookup papp e = some v →
    alistLookup (List.foldl (pappUpd ctx) papp l) e = some v := by
  induction l with
  | nil => intro papp e v h; exact h
  | cons d rest ih =>
    intro papp e v h
    rw [List.foldl_cons]
    exact ih _ _ _ (pappUpd_lookup_some _ _ _ _ _ h)

theorem pappUpd_lookup_other (ctx : Ctx) (papp : List (Int × String))
    (d : Database) (e : Int) (hd : d.inst.environmentId ≠ e) :
    alistLookup (pappUpd ctx papp d) e = alistLookup papp e := by
  unfold pappUpd
  cases h1 : alistLookup papp d.inst.environmentId
  · cases hp : ctx.getPipelineApprovalPolicy d.inst.environmentId
    · rfl
    · rw [alistLookup_append_or, alistLookup_single]
      have hne : (d.inst.environmentId == e) = false := by
        simp [hd]
      rw [hne]
      simp
  · rfl

theorem pappFold_lookup_mem (ctx : Ctx) (e : Int) (v : String)
    (hv : ctx.getPipelineApprovalPolicy e = Except.ok v) (l : List Database) :
    ∀ papp : List (Int × String), (∃ d ∈ l, d.inst.environmentId = e) →
    (alistLookup papp e = none ∨ alistLookup papp e = some v) →
    alistLookup (List.foldl (pappUpd ctx) papp l) e = some v := by
  induction l with
  | nil =>
    intro papp hmem _
    simp at hmem
  | cons d rest ih =>
    intro papp hmem hinv
    rw [List.foldl_cons]
    by_cases hd : d.inst.environmentId = e
    · have hstep : alistLookup (pappUpd ctx papp d) e = some v := by
        unfold pappUpd
        rw [hd]
        cases hinv with
        | inl hnone =>
          rw [hnone, hv, alistLookup_append_none _ _ _ hnone, alistLookup_single]
          simp
        | inr hsome =>
          rw [hsome]
          exact hsome
      exact pappFold_lookup_some ctx rest _ _ _ hstep
    · have hstep : alistLookup (pappUpd ctx papp d) e = alistLookup papp e :=
        pappUpd_lookup_other ctx papp d e hd
      obtain ⟨d', hd', hde⟩ := hmem
      rcases List.mem_cons.1 hd' with h1 | h1
      · exact absurd (h1 ▸ hde) hd
      · exact ih _ ⟨d', h1, hde⟩ (hstep ▸ hinv)

theorem loadPolicies_lookup (ctx : Ctx) (w : String → List ActivityCreate)
    (l : List Database) (d : Database) (v : String) (hd : d ∈ l)
    (hv : ctx.getPipelineApprovalPolicy d.inst.environmentId = Except.ok v) :
    alistLookup (loadPolicies ctx w l).pipelineApprovalByEnv
      d.inst.environmentId = some v := by
  rw [loadPolicies_papp]
  exact pappFold_lookup_mem ctx _ v hv l [] ⟨d, hd, rfl⟩ (Or.inl rfl)

/-! Branch lemmas for `processFile`, one per control-flow exit. -/

theorem processFile_outside (ctx : Ctx) (repo : Repository)
    (ev : WebhookPushEvent) (commit : Commit) (added : String)
    (hpre : strHasPrefix added repo.baseDirectory = false) :
    processFile ctx repo ev commit added = emptyFileOut := by
  unfold processFile
  simp [hpre, emptyFileOut]

theorem processFile_schemaMatch (ctx : Ctx) (repo : Repository)
    (ev : WebhookPushEvent) (commit : Commit) (added : String)
    (hpre : strHasPrefix added repo.baseDirectory = true)
    (hschema : (repo.schemaPathTemplate != "" &&
      ctx.schemaRegexMatch (schemafilePathRegex repo.schemaPathTemplate) added) = true) :
    processFile ctx repo ev commit added = emptyFileOut := by
  unfold processFile
  simp [hpre, hschema, emptyFileOut]

theorem processFile_parseFail (ctx : Ctx) (repo : Repository)
    (ev : WebhookPushEvent) (commit : Commit) (added : String) (e : String)
    (hpre : strHasPrefix added repo.baseDirectory = true)
    (hschema : (repo.schemaPathTemplate != "" &&
      ctx.schemaRegexMatch (schemafilePathRegex repo.schemaPathTemplate) added) = false)
    (hparse : ctx.parseMigrationInfo added
      (filepathJoin repo.baseDirectory repo.filePathTemplate) = .error e) :
    processFile ctx repo ev commit added =
      { step := .skipped, activityCalls := warnOf ctx repo ev commit added e,
        issueCalls := [], issuesCreated := [] } := by
  unfold processFile
  simp [hpre, hschema, hparse, warnOf]

theorem processFile_fetchFail (ctx : Ctx) (repo : Repository)
    (ev : WebhookPushEvent) (commit : Commit) (added : String)
    (mi : MigrationInfo) (e : String)
    (hpre : strHasPrefix added repo.baseDirectory = true)
    (hschema : (repo.schemaPathTemplate != "" &&
      ctx.schemaRegexMatch (schemafilePathRegex repo.schemaPathTemplate) added) = false)
    (hparse : ctx.parseMigrationInfo added
      (filepathJoin repo.baseDirectory repo.filePathTemplate) = .ok mi)
    (hfetch : ctx.fetchFileContent added commit.id = .error e) :
    processFile ctx repo ev commit added =
      { step := .skipped,
        activityCalls := warnOf ctx repo ev commit added ("failed to read file: " ++ e),
        issueCalls := [], issuesCreated := [] } := by
  unfold processFile
  simp [hpre, hschema, hparse, hfetch, warnOf]

theorem processFile_dbFail (ctx : Ctx) (repo : Repository)
    (ev : WebhookPushEvent) (commit : Commit) (added : String)
    (mi : MigrationInfo) (content : String) (e : String)
    (hpre : strHasPrefix added repo.baseDirectory = true)
    (hschema : (repo.schemaPathTemplate != "" &&
      ctx.schemaRegexMatch (schemafilePathRegex repo.schemaPathTemplate) added) = false)
    (hparse : ctx.parseMigrationInfo added
      (filepathJoin repo.baseDirectory repo.filePathTemplate) = .ok mi)
    (hfetch : ctx.fetchFileContent added commit.id = .ok content)
    (hdbs : ctx.composeDatabaseListByFind repo.projectId mi.database = .error e) :
    processFile ctx repo ev commit added =
      { step := .skipped,
        activityCalls := warnOf ctx repo ev commit added
          ("failed to find database matching database \"" ++ mi.database ++
            "\" referenced by the committed file"),
        issueCalls := [], issuesCreated := [] } := by
  unfold processFile
  simp [hpre, hschema, hparse, hfetch, hdbs, warnOf]

theorem processFile_dbEmpty (ctx : Ctx) (repo : Repository)
    (ev : WebhookPushEvent) (commit : Commit) (added : String)
    (mi : MigrationInfo) (content : String)
    (hpre : strHasPrefix added repo.baseDirectory = true)
    (hschema : (repo.schemaPathTemplate != "" &&
      ctx.schemaRegexMatch (schemafilePathRegex repo.schemaPathTemplate) added) = false)
    (hparse : ctx.parseMigrationInfo added
      (filepathJoin repo.baseDirectory repo.filePathTemplate) = .ok mi)
    (hfetch : ctx.fetchFileContent added commit.id = .ok content)
    (hdbs : ctx.composeDatabaseListByFind repo.projectId mi.database = .ok []) :
    processFile ctx repo ev commit added =
      { step := .skipped,
        activityCalls := warnOf ctx repo ev commit added
          ("project ID " ++ toString repo.projectId ++ " does not own database \"" ++
            mi.database ++ "\" referenced by the committed file"),
        issueCalls := [], issuesCreated := [] } := by
  unfold processFile
  simp [hpre, hschema, hparse, hfetch, hdbs, warnOf]

theorem processFile_filterEmpty (ctx : Ctx) (repo : Repository)
    (ev : WebhookPushEvent) (commit : Commit) (added : String)
    (mi : MigrationInfo) (content : String) (dbs : List Database)
    (hpre : strHasPrefix added repo.baseDirectory = true)
    (hschema : (repo.schemaPathTemplate != "" &&
      ctx.schemaRegexMatch (schemafilePathRegex repo.schemaPathTemplate) added) = false)
    (hparse : ctx.parseMigrationInfo added
      (filepathJoin repo.baseDirectory repo.filePathTemplate) = .ok mi)
    (hfetch : ctx.fetchFileContent added commit.id = .ok content)
    (hdbs : ctx.composeDatabaseListByFind repo.projectId mi.database = .ok dbs)
    (hne : dbs.isEmpty = false)
    (hflt : (mi.environment != "" && (filterdDatabaseList dbs mi).isEmpty) = true) :
    processFile ctx repo ev commit added =
      { step := .skipped,
        activityCalls := warnOf ctx repo ev commit added
          ("project does not contain committed file database \"" ++ mi.database ++
            "\" for environment \"" ++ mi.environment ++ "\""),
        issueCalls := [], issuesCreated := [] } := by
  unfold processFile
  simp [hpre, hschema, hparse, hfetch, hdbs, hne, hflt, warnOf]

theorem processFile_ambiguous (ctx : Ctx) (repo : Repository)
    (ev : WebhookPushEvent) (commit : Commit) (added : String)
    (mi : MigrationInfo) (content : String) (dbs : List Database)
    (hpre : strHasPrefix added repo.baseDirectory = true)
    (hschema : (repo.schemaPathTemplate != "" &&
      ctx.schemaRegexMatch (schemafilePathRegex repo.schemaPathTemplate) added) = false)
    (hparse : ctx.parseMigrationInfo added
      (filepathJoin repo.baseDirectory repo.filePathTemplate) = .ok mi)
    (hfetch : ctx.fetchFileContent added commit.id = .ok content)
    (hdbs : ctx.composeDatabaseListByFind repo.projectId mi.database = .ok dbs)
    (hne : dbs.isEmpty = false)
    (hflt : (mi.environment != "" && (filterdDatabaseList dbs mi).isEmpty) = false)
    (hamb : (groupByEnv (filterdDatabaseList dbs mi)).any
      (fun p => p.2.length > 1) = true) :
    processFile ctx repo ev commit added =
      { step := .skipped,
        activityCalls := (passOf ctx repo ev commit added mi dbs).warnCalls,
        issueCalls := [], issuesCreated := [] } := by
  unfold processFile
  simp [hpre, hschema, hparse, hfetch, hdbs, hne, hflt, loadPolicies_dbenv, hamb,
    passOf, warnOf]

theorem processFile_resolved (ctx : Ctx) (repo : Repository)
    (ev : WebhookPushEvent) (commit : Commit) (added : String)
    (mi : MigrationInfo) (content : String) (dbs : List Database)
    (hpre : strHasPrefix added repo.baseDirectory = true)
    (hschema : (repo.schemaPathTemplate != "" &&
      ctx.schemaRegexMatch (schemafilePathRegex repo.schemaPathTemplate) added) = false)
    (hparse : ctx.parseMigrationInfo added
      (filepathJoin repo.baseDirectory repo.filePathTemplate) = .ok mi)
    (hfetch : ctx.fetchFileContent added commit.id = .ok content)
    (hdbs : ctx.composeDatabaseListByFind repo.projectId mi.database = .ok dbs)
    (hne : dbs.isEmpty = false)
    (hflt : (mi.environment != "" && (filterdDatabaseList dbs mi).isEmpty) = false)
    (hamb : (groupByEnv (filterdDatabaseList dbs mi)).any
      (fun p => p.2.length > 1) = false) :
    processFile ctx repo ev commit added =
      issuePhase ctx repo (vcsPushEventOf ctx repo ev commit added)
        (passOf ctx repo ev commit added mi dbs).warnCalls
        (resolvedIssueCreate ctx repo ev commit added mi content dbs) added := by
  unfold processFile
  simp [hpre, hschema, hparse, hfetch, hdbs, hne, hflt, loadPolicies_dbenv, hamb,
    passOf, warnOf, resolvedIssueCreate]

/-! Lemmas about the issue-creation tail. -/

theorem issuePhase_issueCalls (ctx : Ctx) (repo : Repository)
    (vcs : VCSPushEvent) (w : List ActivityCreate) (ic : IssueCreate)
    (added : String) :
    (issuePhase ctx repo vcs w ic added).issueCalls = [ic] := by
  unfold issuePhase
  split
  · rfl
  · split
    · rfl
    · split <;> rfl

theorem issuePhase_issueFail (ctx : Ctx) (repo : Repository)
    (vcs : VCSPushEvent) (w : List ActivityCreate) (ic : IssueCreate)
    (added : String) (e : String) (hi : ctx.createIssue ic = .error e) :
    issuePhase ctx repo vcs w ic added =
      { step := .skipped, activityCalls := w, issueCalls := [ic],
        issuesCreated := [] } := by
  unfold issuePhase
  rw [hi]

theorem issuePhase_marshalFail (ctx : Ctx) (repo : Repository)
    (vcs : VCSPushEvent) (w : List ActivityCreate) (ic : IssueCreate)
    (added : String) (issue : Issue) (e : String)
    (hi : ctx.createIssue ic = .ok issue)
    (hm : ctx.marshalPushPayload
      { vcsPushEvent := vcs, issueId := issue.id, issueName := issue.name } =
        .error e) :
    issuePhase ctx repo vcs w ic added =
      { step := .aborted 500 "Failed to construct activity payload",
        activityCalls := w, issueCalls := [ic], issuesCreated := [issue] } := by
  unfold issuePhase
  rw [hi]
  simp only [hm]

theorem issuePhase_actFail (ctx : Ctx) (repo : Repository)
    (vcs : VCSPushEvent) (w : List ActivityCreate) (ic : IssueCreate)
    (added : String) (issue : Issue) (bytes : String) (e : String)
    (hi : ctx.createIssue ic = .ok issue)
    (hm : ctx.marshalPushPayload
      { vcsPushEvent := vcs, issueId := issue.id, issueName := issue.name } =
        .ok bytes)
    (ha : ctx.createActivity (infoActivityCreate repo issue bytes) = .error e) :
    issuePhase ctx repo vcs w ic added =
      { step := .aborted 500
          ("Failed to create project activity after creating issue from repository push event: " ++
            toString issue.id),
        activityCalls := w ++ [infoActivityCreate repo issue bytes],
        issueCalls := [ic], issuesCreated := [issue] } := by
  unfold issuePhase
  rw [hi]
  simp only [hm, ha]

theorem issuePhase_ok (ctx : Ctx) (repo : Repository) (vcs : VCSPushEvent)
    (w : List ActivityCreate) (ic : IssueCreate) (added : String)
    (hIssue : isOk (ctx.createIssue ic) = true)
    (hMarshal : ∀ p, isOk (ctx.marshalPushPayload p) = true)
    (hAct : ∀ ac, isOk (ctx.createActivity ac) = true) :
    ∃ issue ac, ctx.createIssue ic = .ok issue ∧
      issuePhase ctx repo vcs w ic added =
        { step := .created ("Created issue \"" ++ issue.name ++ "\" on adding " ++ added),
          activityCalls := w ++ [ac], issueCalls := [ic],
          issuesCreated := [issue] } := by
  obtain ⟨issue, hi⟩ := (isOk_iff _).1 hIssue
  obtain ⟨bytes, hm⟩ := (isOk_iff _).1 (hMarshal
    { vcsPushEvent := vcs, issueId := issue.id, issueName := issue.name })
  refine ⟨issue, infoActivityCreate repo issue bytes, hi, ?_⟩
  obtain ⟨u, ha⟩ := (isOk_iff _).1 (hAct (infoActivityCreate repo issue bytes))
  unfold issuePhase
  rw [hi]
  simp only [hm, ha]

/-- Characterization of one file's outcome when every external
issue/activity call succeeds: a response line is produced exactly when the
file resolves, the file never aborts the request, and exactly one issue is
created when (and only when) it resolves. -/
theorem processFile_char (ctx : Ctx) (repo : Repository)
    (ev : WebhookPushEvent) (commit : Commit) (added : String)
    (hIssue : ∀ ic, isOk (ctx.createIssue ic) = true)
    (hMarshal : ∀ p, isOk (ctx.marshalPushPayload p) = true)
    (hAct : ∀ ac, isOk (ctx.createActivity ac) = true) :
    ((fileMessage ctx repo ev commit added).isSome =
      fileResolves ctx repo commit added) ∧
    (∀ s b, (processFile ctx repo ev commit added).step ≠ .aborted s b) ∧
    ((processFile ctx repo ev commit added).issuesCreated.length =
      if fileResolves ctx repo commit added then 1 else 0) := by
  cases hpre : strHasPrefix added repo.baseDirectory with
  | false =>
    have h := processFile_outside ctx repo ev commit added hpre
    simp [fileMessage, h, emptyFileOut, fileResolves, hpre]
  | true =>
    cases hschema : (repo.schemaPathTemplate != "" &&
        ctx.schemaRegexMatch (schemafilePathRegex repo.schemaPathTemplate) added) with
    | true =>
      have h := processFile_schemaMatch ctx repo ev commit added hpre hschema
      simp [fileMessage, h, emptyFileOut, fileResolves, hpre, hschema]
    | false =>
      cases hparse : ctx.parseMigrationInfo added
          (filepathJoin repo.baseDirectory repo.filePathTemplate) with
      | error e =>
        have h := processFile_parseFail ctx repo ev commit added e hpre hschema hparse
        simp [fileMessage, h, fileResolves, hpre, hschema, hparse]
      | ok mi =>
        cases hfetch : ctx.fetchFileContent added commit.id with
        | error e =>
          have h := processFile_fetchFail ctx repo ev commit added mi e
            hpre hschema hparse hfetch
          simp [fileMessage, h, fileResolves, hpre, hschema, hparse, hfetch]
        | ok content =>
          cases hdbs : ctx.composeDatabaseListByFind repo.projectId mi.database with
          | error e =>
            have h := processFile_dbFail ctx repo ev commit added mi content e
              hpre hschema hparse hfetch hdbs
            simp [fileMessage, h, fileResolves, hpre, hschema, hparse, hfetch, hdbs]
          | ok dbs =>
            cases hne : dbs.isEmpty with
            | true =>
              have hnil : dbs = [] := by
                cases dbs with
                | nil => rfl
                | cons x xs => simp [List.isEmpty] at hne
              subst hnil
              have h := processFile_dbEmpty ctx repo ev commit added mi content
                hpre hschema hparse hfetch hdbs
              simp [fileMessage, h, fileResolves, hpre, hschema, hparse, hfetch, hdbs]
            | false =>
              cases hflt : (mi.environment != "" &&
                  (filterdDatabaseList dbs mi).isEmpty) with
              | true =>
                have h := processFile_filterEmpty ctx repo ev commit added mi content dbs
                  hpre hschema hparse hfetch hdbs hne hflt
                simp [fileMessage, h, fileResolves, hpre, hschema, hparse, hfetch,
                  hdbs, hne, hflt]
              | false =>
                cases hamb : (groupByEnv (filterdDatabaseList dbs mi)).any
                    (fun p => p.2.length > 1) with
                | true =>
                  have h := processFile_ambiguous ctx repo ev commit added mi content dbs
                    hpre hschema hparse hfetch hdbs hne hflt hamb
                  simp [fileMessage, h, fileResolves, hpre, hschema, hparse, hfetch,
                    hdbs, hne, hflt, hamb]
                | false =>
                  have h := processFile_resolved ctx repo ev commit added mi content dbs
                    hpre hschema hparse hfetch hdbs hne hflt hamb
                  obtain ⟨issue, ac, hi, heq⟩ := issuePhase_ok ctx repo
                    (vcsPushEventOf ctx repo ev commit added)
                    (passOf ctx repo ev commit added mi dbs).warnCalls
                    (resolvedIssueCreate ctx repo ev commit added mi content dbs) added
                    (hIssue _) hMarshal hAct
                  rw [heq] at h
                  simp [fileMessage, h, fileResolves, hpre, hschema, hparse, hfetch,
                    hdbs, hne, hflt, hamb]

/-! Lemmas about the commit/file loops. -/

theorem stepAcc_messages (acc : RunAcc) (o : FileOut) :
    (stepAcc acc o).createdMessageList =
      acc.createdMessageList ++
        (match o.step with | .created m => [m] | _ => []) := by
  unfold stepAcc
  cases h : o.step <;> simp [h]

theorem stepAcc_activityCalls (acc : RunAcc) (o : FileOut) :
    (stepAcc acc o).activityCalls = acc.activityCalls ++ o.activityCalls := by
  unfold stepAcc
  cases h : o.step <;> simp [h]

theorem stepAcc_issueCalls (acc : RunAcc) (o : FileOut) :
    (stepAcc acc o).issueCalls = acc.issueCalls ++ o.issueCalls := by
  unfold stepAcc
  cases h : o.step <;> simp [h]

theorem stepAcc_issuesCreated (acc : RunAcc) (o : FileOut) :
    (stepAcc acc o).issuesCreated = acc.issuesCreated ++ o.issuesCreated := by
  unfold stepAcc
  cases h : o.step <;> simp [h]

theorem stepAcc_aborted (acc : RunAcc) (o : FileOut) :
    (stepAcc acc o).aborted =
      (match o.step with
       | .aborted s b => some (s, b)
       | _ => acc.aborted) := by
  unfold stepAcc
  cases h : o.step <;> simp [h]

theorem foldFiles_cons (ctx : Ctx) (repo : Repository) (ev : WebhookPushEvent)
    (commit : Commit) (a : String) (rest : List String) (acc : RunAcc)
    (hacc : acc.aborted = none) :
    foldFiles ctx repo ev commit (a :: rest) acc =
      foldFiles ctx repo ev commit rest
        (stepAcc acc (processFile ctx repo ev commit a)) := by
  conv_lhs => rw [foldFiles]
  rw [hacc]

theorem foldFiles_stuck (ctx : Ctx) (repo : Repository) (ev : WebhookPushEvent)
    (commit : Commit) (l : List String) (acc : RunAcc) (r : Nat × String)
    (hacc : acc.aborted = some r) :
    foldFiles ctx repo ev commit l acc = acc := by
  cases l with
  | nil => rfl
  | cons a rest =>
    conv_lhs => rw [foldFiles]
    rw [hacc]

theorem foldCommits_cons (ctx : Ctx) (repo : Repository) (ev : WebhookPushEvent)
    (c : Commit) (rest : List Commit) (acc : RunAcc)
    (hacc : acc.aborted = none) :
    foldCommits ctx repo ev (c :: rest) acc =
      foldCommits ctx repo ev rest
        (foldFiles ctx repo ev c c.addedList acc) := by
  conv_lhs => rw [foldCommits]
  rw [hacc]

theorem foldCommits_stuck (ctx : Ctx) (repo : Repository) (ev : WebhookPushEvent)
    (cs : List Commit) (acc : RunAcc) (r : Nat × String)
    (hacc : acc.aborted = some r) :
    foldCommits ctx repo ev cs acc = acc := by
  cases cs with
  | nil => rfl
  | cons c rest =>
    conv_lhs => rw [foldCommits]
    rw [hacc]

theorem pairsMessages_append (ctx : Ctx) (repo : Repository)
    (ev : WebhookPushEvent) (ps qs : List (Commit × String)) :
    pairsMessages ctx repo ev (ps ++ qs) =
      pairsMessages ctx repo ev ps ++ pairsMessages ctx repo ev qs := by
  unfold pairsMessages
  rw [List.filterMap_append]

theorem pairsActivityCalls_append (ctx : Ctx) (repo : Repository)
    (ev : WebhookPushEvent) (ps qs : List (Commit × String)) :
    pairsActivityCalls ctx repo ev (ps ++ qs) =
      pairsActivityCalls ctx repo ev ps ++ pairsActivityCalls ctx repo ev qs := by
  unfold pairsActivityCalls
  rw [List.map_append, listCat_append]

theorem pairsIssueCalls_append (ctx : Ctx) (repo : Repository)
    (ev : WebhookPushEvent) (ps qs : List (Commit × String)) :
    pairsIssueCalls ctx repo ev (ps ++ qs) =
      pairsIssueCalls ctx repo ev ps ++ pairsIssueCalls ctx repo ev qs := by
  unfold pairsIssueCalls
  rw [List.map_append, listCat_append]

theorem pairsIssuesCreated_append (ctx : Ctx) (repo : Repository)
    (ev : WebhookPushEvent) (ps qs : List (Commit × String)) :
    pairsIssuesCreated ctx repo ev (ps ++ qs) =
      pairsIssuesCreated ctx repo ev ps ++ pairsIssuesCreated ctx repo ev qs := by
  unfold pairsIssuesCreated
  rw [List.map_append, listCat_append]

theorem foldFiles_ok (ctx : Ctx) (repo : Repository) (ev : WebhookPushEvent)
    (commit : Commit) :
    ∀ (l : List String) (acc : RunAcc), acc.aborted = none →
    (∀ a ∈ l, ∀ s b, (processFile ctx repo ev commit a).step ≠ FileStep.aborted s b) →
    foldFiles ctx repo ev commit l acc =
      { createdMessageList := acc.createdMessageList ++
          pairsMessages ctx repo ev (l.map (fun a => (commit, a)))
        activityCalls := acc.activityCalls ++
          pairsActivityCalls ctx repo ev (l.map (fun a => (commit, a)))
        issueCalls := acc.issueCalls ++
          pairsIssueCalls ctx repo ev (l.map (fun a => (commit, a)))
        issuesCreated := acc.issuesCreated ++
          pairsIssuesCreated ctx repo ev (l.map (fun a => (commit, a)))
        aborted := none } := by
  intro l
  induction l with
  | nil =>
    intro acc hacc h
    obtain ⟨m, ac, ic, si, ab⟩ := acc
    simp only [RunAcc.aborted] at hacc
    subst hacc
    simp [foldFiles, pairsMessages, pairsActivityCalls, pairsIssueCalls,
      pairsIssuesCreated, listCat]
  | cons a rest ih =>
    intro acc hacc h
    have hnoab := h a (List.mem_cons_self a rest)
    have habstep : (stepAcc acc (processFile ctx repo ev commit a)).aborted = none := by
      rw [stepAcc_aborted]
      cases hstep : (processFile ctx repo ev commit a).step with
      | skipped => exact hacc
      | created m => exact hacc
      | aborted s b => exact absurd hstep (hnoab s b)
    rw [foldFiles_cons ctx repo ev commit a rest acc hacc,
      ih _ habstep (fun x hx => h x (List.mem_cons_of_mem a hx))]
    rw [stepAcc_messages, stepAcc_activityCalls, stepAcc_issueCalls,
      stepAcc_issuesCreated]
    cases hstep : (processFile ctx repo ev commit a).step with
    | skipped =>
      simp [pairsMessages, pairsActivityCalls, pairsIssueCalls, pairsIssuesCreated,
        listCat_cons, fileMessage, hstep, List.filterMap_cons]
    | created m =>
      simp [pairsMessages, pairsActivityCalls, pairsIssueCalls, pairsIssuesCreated,
        listCat_cons, fileMessage, hstep, List.filterMap_cons]
    | aborted s b => exact absurd hstep (hnoab s b)

theorem foldCommits_ok (ctx : Ctx) (repo : Repository) (ev : WebhookPushEvent) :
    ∀ (cs : List Commit) (acc : RunAcc), acc.aborted = none →
    (∀ p ∈ pushPairsList cs, ∀ s b,
      (processFile ctx repo ev p.1 p.2).step ≠ FileStep.aborted s b) →
    foldCommits ctx repo ev cs acc =
      { createdMessageList := acc.createdMessageList ++
          pairsMessages ctx repo ev (pushPairsList cs)
        activityCalls := acc.activityCalls ++
          pairsActivityCalls ctx repo ev (pushPairsList cs)
        issueCalls := acc.issueCalls ++
          pairsIssueCalls ctx repo ev (pushPairsList cs)
        issuesCreated := acc.issuesCreated ++
          pairsIssuesCreated ctx repo ev (pushPairsList cs)
        aborted := none } := by
  intro cs
  induction cs with
  | nil =>
    intro acc hacc h
    obtain ⟨m, ac, ic, si, ab⟩ := acc
    simp only [RunAcc.aborted] at hacc
    subst hacc
    simp [foldCommits, pushPairsList, pairsMessages, pairsActivityCalls,
      pairsIssueCalls, pairsIssuesCreated, listCat]
  | cons c rest ih =>
    intro acc hacc h
    have hsplit : pushPairsList (c :: rest) =
        c.addedList.map (fun a => (c, a)) ++ pushPairsList rest := rfl
    have hfiles : ∀ a ∈ c.addedList, ∀ s b,
        (processFile ctx repo ev c a).step ≠ FileStep.aborted s b := by
      intro a ha s b
      refine h (c, a) ?_ s b
      rw [hsplit]
      exact List.mem_append_left _ (List.mem_map_of_mem _ ha)
    have hrest : ∀ p ∈ pushPairsList rest, ∀ s b,
        (processFile ctx repo ev p.1 p.2).step ≠ FileStep.aborted s b := by
      intro p hp
      refine h p ?_
      rw [hsplit]
      exact List.mem_append_right _ hp
    rw [foldCommits_cons ctx repo ev c rest acc hacc,
      foldFiles_ok ctx repo ev c c.addedList acc hacc hfiles,
      ih _ rfl hrest, hsplit]
    simp [pairsMessages_append, pairsActivityCalls_append, pairsIssueCalls_append,
      pairsIssuesCreated_append]

/-- The full handler on a validated request whose files never abort. -/
theorem handleWebhook_ok (ctx : Ctx) (req : Request) (b : String)
    (ev : WebhookPushEvent) (repo0 repo : Repository)
    (h1 : ctx.readRequestBody = .ok b)
    (h2 : ctx.unmarshalPushEvent b = .ok ev)
    (h3 : ev.objectKind = WebhookPush)
    (h4 : ctx.findRepository req.webhookEndpointId = .found repo0)
    (h5 : ctx.composeRepositoryRelationship repo0 = .ok repo)
    (h6 : req.gitlabToken = repo.webhookSecretToken)
    (h7 : toString ev.project.id = repo.externalId)
    (hnoab : ∀ p ∈ pushPairs ev, ∀ s b2,
      (processFile ctx repo ev p.1 p.2).step ≠ FileStep.aborted s b2) :
    handleWebhook ctx req =
      { response :=
          { status := 200
            body := String.intercalate "\n" (pairsMessages ctx repo ev (pushPairs ev)) }
        activityCalls := pairsActivityCalls ctx repo ev (pushPairs ev)
        issueCalls := pairsIssueCalls ctx repo ev (pushPairs ev)
        issuesCreated := pairsIssuesCreated ctx repo ev (pushPairs ev) } := by
  unfold handleWebhook
  rw [h1]
  simp only [h2, h3, h4, h5, h6, h7, bne_self_eq_false, Bool.false_eq_true,
    if_false, ite_false]
  rw [foldCommits_ok ctx repo ev ev.commitList emptyAcc rfl hnoab]
  simp [emptyAcc, pushPairs]

/-- When every file's issue count matches its response-line count, the run
totals match too. -/
theorem pairs_count (ctx : Ctx) (repo : Repository) (ev : WebhookPushEvent)
    (ps : List (Commit × String))
    (h : ∀ p ∈ ps, (processFile ctx repo ev p.1 p.2).issuesCreated.length =
      (if (fileMessage ctx repo ev p.1 p.2).isSome then 1 else 0)) :
    (pairsIssuesCreated ctx repo ev ps).length =
      (pairsMessages ctx repo ev ps).length := by
  induction ps with
  | nil => rfl
  | cons p rest ih =>
    have hp := h p (List.mem_cons_self p rest)
    have hr := ih (fun q hq => h q (List.mem_cons_of_mem p hq))
    unfold pairsIssuesCreated pairsMessages at hr ⊢
    rw [List.map_cons, listCat_cons, List.filterMap_cons, List.length_append, hp]
    cases hm : (fileMessage ctx repo ev p.1 p.2) with
    | none => simp [hm] at hp ⊢; omega
    | some m => simp [hm] at hp ⊢; omega

/-! The claims. -/

/-- C1: for every push event that passes request-level validation (body
read, payload parsed, kind "push", endpoint known, relationship composed,
secret and project id matching), with the external issue-creation,
payload-marshalling and activity-creation collaborators succeeding, the
handler answers HTTP 200; its body is the newline-joined list of the
"Created issue ... on adding ..." lines, one per created issue, in
file-processing order (commits in payload order, added files in payload
order within each commit, as enumerated by `pushPairs`), empty when no
issue was created; exactly one issue is created per (commit, added file)
pair that resolves to at least one non-ambiguous database
(`fileResolves`), and a response line is present for exactly those
pairs. -/
theorem claim_C1 (ctx : Ctx) (req : Request) (b : String)
    (ev : WebhookPushEvent) (repo0 repo : Repository)
    (h1 : ctx.readRequestBody = .ok b)
    (h2 : ctx.unmarshalPushEvent b = .ok ev)
    (h3 : ev.objectKind = WebhookPush)
    (h4 : ctx.findRepository req.webhookEndpointId = .found repo0)
    (h5 : ctx.composeRepositoryRelationship repo0 = .ok repo)
    (h6 : req.gitlabToken = repo.webhookSecretToken)
    (h7 : toString ev.project.id = repo.externalId)
    (hIssue : ∀ ic, isOk (ctx.createIssue ic) = true)
    (hMarshal : ∀ p, isOk (ctx.marshalPushPayload p) = true)
    (hAct : ∀ ac, isOk (ctx.createActivity ac) = true) :
    (handleWebhook ctx req).response.status = 200 ∧
    (handleWebhook ctx req).response.body =
      String.intercalate "\n" (pairsMessages ctx repo ev (pushPairs ev)) ∧
    (handleWebhook ctx req).issuesCreated.length =
      (pairsMessages ctx repo ev (pushPairs ev)).length ∧
    (∀ p ∈ pushPairs ev, (fileMessage ctx repo ev p.1 p.2).isSome =
      fileResolves ctx repo p.1 p.2) ∧
    (∀ p ∈ pushPairs ev, (processFile ctx repo ev p.1 p.2).issuesCreated.length =
      (if fileResolves ctx repo p.1 p.2 then 1 else 0)) := by
  have hchar := fun (c : Commit) (a : String) =>
    processFile_char ctx repo ev c a hIssue hMarshal hAct
  have hnoab : ∀ p ∈ pushPairs ev, ∀ s b2,
      (processFile ctx repo ev p.1 p.2).step ≠ FileStep.aborted s b2 :=
    fun p _ s b2 => (hchar p.1 p.2).2.1 s b2
  have H := handleWebhook_ok ctx req b ev repo0 repo h1 h2 h3 h4 h5 h6 h7 hnoab
  rw [H]
  refine ⟨rfl, rfl, ?_, ?_, ?_⟩
  · exact pairs_count ctx repo ev (pushPairs ev)
      (fun p _ => by rw [(hchar p.1 p.2).2.2, (hchar p.1 p.2).1])
  · exact fun p _ => (hchar p.1 p.2).1
  · exact fun p _ => (hchar p.1 p.2).2.2

/-- Witness for C1 at the all-success fixtures. -/
theorem claim_C1_witness :
    (handleWebhook ctxFix reqFix).response.status = 200 ∧
    (handleWebhook ctxFix reqFix).response.body =
      String.intercalate "\n" (pairsMessages ctxFix repoFix eventFix (pushPairs eventFix)) ∧
    (handleWebhook ctxFix reqFix).issuesCreated.length =
      (pairsMessages ctxFix repoFix eventFix (pushPairs eventFix)).length ∧
    (∀ p ∈ pushPairs eventFix, (fileMessage ctxFix repoFix eventFix p.1 p.2).isSome =
      fileResolves ctxFix repoFix p.1 p.2) ∧
    (∀ p ∈ pushPairs eventFix,
      (processFile ctxFix repoFix eventFix p.1 p.2).issuesCreated.length =
        (if fileResolves ctxFix repoFix p.1 p.2 then 1 else 0)) :=
  claim_C1 ctxFix reqFix "body" eventFix repoFix repoFix rfl rfl rfl rfl rfl rfl
    rfl (fun _ => rfl) (fun _ => rfl) (fun _ => rfl)

/-- Counterexample to C2 as stated: with two databases named `db1` in the
same environment (the ambiguity condition) and a failing approval-policy
lookup, the file is skipped and no issue is created, but two WARN
activity-creation calls ARE recorded during the same pass — the claim's
"no activity of any level is recorded for it" is false on the code. -/
theorem claim_C2_counterexample :
    (groupByEnv (filterdDatabaseList [db1, db1b] miFix)).any
      (fun p => p.2.length > 1) = true ∧
    (processFile ctxAmbPolFail repoFix eventFix commitFix "db/v1__db1").step =
      FileStep.skipped ∧
    (processFile ctxAmbPolFail repoFix eventFix commitFix "db/v1__db1").issueCalls = [] ∧
    (processFile ctxAmbPolFail repoFix eventFix commitFix "db/v1__db1").activityCalls.length = 2 ∧
    ((processFile ctxAmbPolFail repoFix eventFix commitFix "db/v1__db1").activityCalls.map
      (fun a => a.level)) = [ActivityLevel.warn, ActivityLevel.warn] ∧
    (∀ ac ∈ (processFile ctxAmbPolFail repoFix eventFix commitFix "db/v1__db1").activityCalls,
      isOk (ctxAmbPolFail.createActivity ac) = true) :=
  ⟨rfl, rfl, rfl, rfl, rfl, fun _ _ => rfl⟩

/-- C2 (amended): if any environment bucket of the filtered candidate set
holds more than one database, the entire file is skipped — no
issue-creation call, no created issue, no response line — and the
ambiguity itself records no activity: the file's activity calls are
exactly the WARN records of failing approval-policy lookups from the same
pass, so when every policy lookup succeeds the skip is fully silent. -/
theorem claim_C2 (ctx : Ctx) (repo : Repository) (ev : WebhookPushEvent)
    (commit : Commit) (added : String) (mi : MigrationInfo) (content : String)
    (dbs : List Database)
    (hpre : strHasPrefix added repo.baseDirectory = true)
    (hschema : (repo.schemaPathTemplate != "" &&
      ctx.schemaRegexMatch (schemafilePathRegex repo.schemaPathTemplate) added) = false)
    (hparse : ctx.parseMigrationInfo added
      (filepathJoin repo.baseDirectory repo.filePathTemplate) = .ok mi)
    (hfetch : ctx.fetchFileContent added commit.id = .ok content)
    (hdbs : ctx.composeDatabaseListByFind repo.projectId mi.database = .ok dbs)
    (hne : dbs.isEmpty = false)
    (hflt : (mi.environment != "" && (filterdDatabaseList dbs mi).isEmpty) = false)
    (hamb : (groupByEnv (filterdDatabaseList dbs mi)).any
      (fun p => p.2.length > 1) = true) :
    (processFile ctx repo ev commit added).step = FileStep.skipped ∧
    (processFile ctx repo ev commit added).issueCalls = [] ∧
    (processFile ctx repo ev commit added).issuesCreated = [] ∧
    (processFile ctx repo ev commit added).activityCalls =
      (passOf ctx repo ev commit added mi dbs).warnCalls ∧
    ((∀ e, isOk (ctx.getPipelineApprovalPolicy e) = true) →
      processFile ctx repo ev commit added = emptyFileOut) := by
  have h := processFile_ambiguous ctx repo ev commit added mi content dbs
    hpre hschema hparse hfetch hdbs hne hflt hamb
  refine ⟨by rw [h], by rw [h], by rw [h], by rw [h], fun hpol => ?_⟩
  rw [h]
  unfold passOf
  rw [loadPolicies_warnCalls ctx _ hpol]
  rfl

/-- Witness for C2 (amended) at the ambiguous fixtures with healthy policy
lookups. -/
theorem claim_C2_witness :
    (processFile ctxAmb repoFix eventFix commitFix "db/v1__db1").step =
      FileStep.skipped ∧
    processFile ctxAmb repoFix eventFix commitFix "db/v1__db1" = emptyFileOut :=
  have H := claim_C2 ctxAmb repoFix eventFix commitFix "db/v1__db1" miFix
    "CREATE TABLE t (c INT);" [db1, db1b] rfl rfl rfl rfl rfl rfl rfl rfl
  ⟨H.1, H.2.2.2.2 (fun _ => rfl)⟩

/-- C3 is the claim the code violates: when the approval-policy lookup for
the only environment of the file fails, the handler records the WARN
"Ignored committed file ..." activity, but the `continue` only leaves the
inner database loop, so the file is NOT skipped: the issue is still
created (with the approval-gated status, since the policy map has no
entry).  This theorem exhibits the run at the failing input. -/
theorem claim_C3_bug :
    ((processFile ctxPolFail repoFix eventFix commitFix "db/v1__db1").activityCalls.map
      (fun a => a.level)) = [ActivityLevel.warn, ActivityLevel.info] ∧
    ((processFile ctxPolFail repoFix eventFix commitFix "db/v1__db1").activityCalls.head?).map
      (fun a => a.comment) =
        some "Ignored committed file \"db/v1__db1\", failed to find pipeline approval policy for environment 1." ∧
    (processFile ctxPolFail repoFix eventFix commitFix "db/v1__db1").issuesCreated =
      [{ id := 7, name := "T" }] ∧
    (processFile ctxPolFail repoFix eventFix commitFix "db/v1__db1").step =
      FileStep.created "Created issue \"T\" on adding db/v1__db1" ∧
    ((processFile ctxPolFail repoFix eventFix commitFix "db/v1__db1").issueCalls.map
      (fun ic => ic.pipeline.stageList.map
        (fun sg => sg.taskList.map (fun t => t.status)))) =
      [[[TaskStatus.pendingApproval]]] :=
  ⟨rfl, rfl, rfl, rfl, rfl⟩

/-- C4: for a file whose target set resolves non-ambiguously, the
submitted issue-creation request carries one stage per resolved database,
in order; each stage is named after its database's environment and holds
exactly one task whose name is the migration description and whose
statement is the raw content fetched from the VCS provider; the issue is
named after the commit title, described by the commit message, and
assigned to the system bot. -/
theorem claim_C4 (ctx : Ctx) (repo : Repository) (ev : WebhookPushEvent)
    (commit : Commit) (added : String) (mi : MigrationInfo) (content : String)
    (dbs : List Database)
    (hpre : strHasPrefix added repo.baseDirectory = true)
    (hschema : (repo.schemaPathTemplate != "" &&
      ctx.schemaRegexMatch (schemafilePathRegex repo.schemaPathTemplate) added) = false)
    (hparse : ctx.parseMigrationInfo added
      (filepathJoin repo.baseDirectory repo.filePathTemplate) = .ok mi)
    (hfetch : ctx.fetchFileContent added commit.id = .ok content)
    (hdbs : ctx.composeDatabaseListByFind repo.projectId mi.database = .ok dbs)
    (hne : dbs.isEmpty = false)
    (hflt : (mi.environment != "" && (filterdDatabaseList dbs mi).isEmpty) = false)
    (hamb : (groupByEnv (filterdDatabaseList dbs mi)).any
      (fun p => p.2.length > 1) = false) :
    (processFile ctx repo ev commit added).issueCalls =
      [resolvedIssueCreate ctx repo ev commit added mi content dbs] ∧
    (resolvedIssueCreate ctx repo ev commit added mi content dbs).pipeline.stageList =
      (filterdDatabaseList dbs mi).map
        (mkStage (passOf ctx repo ev commit added mi dbs).pipelineApprovalByEnv
          mi content (vcsPushEventOf ctx repo ev commit added)) ∧
    (resolvedIssueCreate ctx repo ev commit added mi content dbs).name = commit.title ∧
    (resolvedIssueCreate ctx repo ev commit added mi content dbs).description =
      commit.message ∧
    (resolvedIssueCreate ctx repo ev commit added mi content dbs).assigneeId =
      SYSTEM_BOT_ID ∧
    (resolvedIssueCreate ctx repo ev commit added mi content dbs).projectId =
      repo.projectId ∧
    (resolvedIssueCreate ctx repo ev commit added mi content dbs).pipeline.stageList.length =
      (filterdDatabaseList dbs mi).length ∧
    (∀ db ∈ filterdDatabaseList dbs mi,
      (mkStage (passOf ctx repo ev commit added mi dbs).pipelineApprovalByEnv
        mi content (vcsPushEventOf ctx repo ev commit added) db).name =
          db.inst.environment.name ∧
      (mkStage (passOf ctx repo ev commit added mi dbs).pipelineApprovalByEnv
        mi content (vcsPushEventOf ctx repo ev commit added) db).environmentId =
          db.inst.environmentId ∧
      ∃ t, (mkStage (passOf ctx repo ev commit added mi dbs).pipelineApprovalByEnv
          mi content (vcsPushEventOf ctx repo ev commit added) db).taskList = [t] ∧
        t.name = mi.description ∧ t.statement = content ∧
        t.type = TaskDatabaseSchemaUpdate ∧ t.instanceId = db.instanceId ∧
        t.databaseId = db.id ∧ t.migrationType = mi.type) := by
  refine ⟨?_, rfl, rfl, rfl, rfl, rfl, by simp [resolvedIssueCreate, issueCreateOf], ?_⟩
  · rw [processFile_resolved ctx repo ev commit added mi content dbs
      hpre hschema hparse hfetch hdbs hne hflt hamb]
    exact issuePhase_issueCalls _ _ _ _ _ _
  · intro db _
    exact ⟨rfl, rfl, _, rfl, rfl, rfl, rfl, rfl, rfl, rfl⟩

/-- Witness for C4 at the all-success fixtures. -/
theorem claim_C4_witness :
    (processFile ctxFix repoFix eventFix commitFix "db/v1__db1").issueCalls =
      [resolvedIssueCreate ctxFix repoFix eventFix commitFix "db/v1__db1" miFix
        "CREATE TABLE t (c INT);" [db1]] :=
  (claim_C4 ctxFix repoFix eventFix commitFix "db/v1__db1" miFix
    "CREATE TABLE t (c INT);" [db1] rfl rfl rfl rfl rfl rfl rfl rfl).1

/-- C5: in a successfully built pipeline, the task of the stage built for a
resolved database starts in the auto-run `pending` status exactly when the
approval policy looked up for that database's environment during this
file's pass returned `MANUAL_APPROVAL_NEVER`; any other value yields the
approval-gated status (assuming, as the hydration invariant guarantees,
that the hydrated environment id equals the raw environment id column). -/
theorem claim_C5 (ctx : Ctx) (repo : Repository) (ev : WebhookPushEvent)
    (commit : Commit) (added : String) (mi : MigrationInfo) (content : String)
    (dbs : List Database) (db : Database) (v : String)
    (hpre : strHasPrefix added repo.baseDirectory = true)
    (hschema : (repo.schemaPathTemplate != "" &&
      ctx.schemaRegexMatch (schemafilePathRegex repo.schemaPathTemplate) added) = false)
    (hparse : ctx.parseMigrationInfo added
      (filepathJoin repo.baseDirectory repo.filePathTemplate) = .ok mi)
    (hfetch : ctx.fetchFileContent added commit.id = .ok content)
    (hdbs : ctx.composeDatabaseListByFind repo.projectId mi.database = .ok dbs)
    (hne : dbs.isEmpty = false)
    (hflt : (mi.environment != "" && (filterdDatabaseList dbs mi).isEmpty) = false)
    (hamb : (groupByEnv (filterdDatabaseList dbs mi)).any
      (fun p => p.2.length > 1) = false)
    (hdb : db ∈ filterdDatabaseList dbs mi)
    (henv : db.inst.environment.id = db.inst.environmentId)
    (hv : ctx.getPipelineApprovalPolicy db.inst.environmentId = .ok v) :
    (processFile ctx repo ev commit added).issueCalls =
      [resolvedIssueCreate ctx repo ev commit added mi content dbs] ∧
    (mkStage (passOf ctx repo ev commit added mi dbs).pipelineApprovalByEnv
        mi content (vcsPushEventOf ctx repo ev commit added) db) ∈
      (resolvedIssueCreate ctx repo ev commit added mi content dbs).pipeline.stageList ∧
    ∃ t, (mkStage (passOf ctx repo ev commit added mi dbs).pipelineApprovalByEnv
        mi content (vcsPushEventOf ctx repo ev commit added) db).taskList = [t] ∧
      (t.status = TaskStatus.pending ↔ v = PipelineApprovalValueManualNever) := by
  have hlook : alistLookup
      (passOf ctx repo ev commit added mi dbs).pipelineApprovalByEnv
      db.inst.environmentId = some v := by
    unfold passOf
    exact loadPolicies_lookup ctx _ _ db v hdb hv
  refine ⟨?_, ?_, ?_⟩
  · rw [processFile_resolved ctx repo ev commit added mi content dbs
      hpre hschema hparse hfetch hdbs hne hflt hamb]
    exact issuePhase_issueCalls _ _ _ _ _ _
  · exact List.mem_map_of_mem _ hdb
  · refine ⟨mkTask (passOf ctx repo ev commit added mi dbs).pipelineApprovalByEnv
      mi content (vcsPushEventOf ctx repo ev commit added) db, rfl, ?_⟩
    unfold mkTask
    show (if (alistLookup
        (passOf ctx repo ev commit added mi dbs).pipelineApprovalByEnv
        db.inst.environment.id).getD "" == PipelineApprovalValueManualNever then
      TaskStatus.pending else TaskStatus.pendingApproval) = TaskStatus.pending ↔
        v = PipelineApprovalValueManualNever
    rw [henv, hlook]
    simp only [Option.getD_some]
    by_cases hv2 : v = PipelineApprovalValueManualNever
    · simp [hv2]
    · simp [hv2]

/-- Witness for C5 at the all-success fixtures (approval-required policy,
hence the approval-gated status). -/
theorem claim_C5_witness :
    (processFile ctxFix repoFix eventFix commitFix "db/v1__db1").issueCalls =
      [resolvedIssueCreate ctxFix repoFix eventFix commitFix "db/v1__db1" miFix
        "CREATE TABLE t (c INT);" [db1]] ∧
    (mkStage (passOf ctxFix repoFix eventFix commitFix "db/v1__db1" miFix [db1]).pipelineApprovalByEnv
        miFix "CREATE TABLE t (c INT);"
        (vcsPushEventOf ctxFix repoFix eventFix commitFix "db/v1__db1") db1) ∈
      (resolvedIssueCreate ctxFix repoFix eventFix commitFix "db/v1__db1" miFix
        "CREATE TABLE t (c INT);" [db1]).pipeline.stageList ∧
    ∃ t, (mkStage (passOf ctxFix repoFix eventFix commitFix "db/v1__db1" miFix [db1]).pipelineApprovalByEnv
        miFix "CREATE TABLE t (c INT);"
        (vcsPushEventOf ctxFix repoFix eventFix commitFix "db/v1__db1") db1).taskList = [t] ∧
      (t.status = TaskStatus.pending ↔
        "MANUAL_APPROVAL_ALWAYS" = PipelineApprovalValueManualNever) :=
  claim_C5 ctxFix repoFix eventFix commitFix "db/v1__db1" miFix
    "CREATE TABLE t (c INT);" [db1] db1 "MANUAL_APPROVAL_ALWAYS"
    rfl rfl rfl rfl rfl rfl rfl rfl (List.mem_singleton.2 rfl) rfl rfl

/-- C6: the ordered classifier rules — a file outside the base directory
is a fully silent skip (no activity call, no issue call, no response
line); a file matching the configured schema-dump template (via the
placeholder-substituted pattern `schemafilePathRegex`) is an equally
silent skip; a file that fails to parse against the migration path
template is skipped, creates no issue, and produces exactly one WARN
activity (the marshalling of the WARN payload succeeding), after which
processing continues with the next file. -/
theorem claim_C6 (ctx : Ctx) (repo : Repository) (ev : WebhookPushEvent)
    (commit : Commit) (a1 a2 a3 e : String)
    (h1 : strHasPrefix a1 repo.baseDirectory = false)
    (h2a : strHasPrefix a2 repo.baseDirectory = true)
    (h2b : (repo.schemaPathTemplate != "" &&
      ctx.schemaRegexMatch (schemafilePathRegex repo.schemaPathTemplate) a2) = true)
    (h3a : strHasPrefix a3 repo.baseDirectory = true)
    (h3b : (repo.schemaPathTemplate != "" &&
      ctx.schemaRegexMatch (schemafilePathRegex repo.schemaPathTemplate) a3) = false)
    (h3c : ctx.parseMigrationInfo a3
      (filepathJoin repo.baseDirectory repo.filePathTemplate) = .error e)
    (hm : ∀ p, isOk (ctx.marshalPushPayload p) = true) :
    processFile ctx repo ev commit a1 = emptyFileOut ∧
    processFile ctx repo ev commit a2 = emptyFileOut ∧
    ((processFile ctx repo ev commit a3).step = FileStep.skipped ∧
      (processFile ctx repo ev commit a3).issueCalls = [] ∧
      (processFile ctx repo ev commit a3).issuesCreated = [] ∧
      ∃ ac, (processFile ctx repo ev commit a3).activityCalls = [ac] ∧
        ac.level = ActivityLevel.warn) := by
  refine ⟨processFile_outside ctx repo ev commit a1 h1,
    processFile_schemaMatch ctx repo ev commit a2 h2a h2b, ?_⟩
  rw [processFile_parseFail ctx repo ev commit a3 e h3a h3b h3c]
  obtain ⟨bytes, hmb⟩ := (isOk_iff _).1 (hm
    { vcsPushEvent := vcsPushEventOf ctx repo ev commit a3 })
  unfold warnOf createIgnoredFileActivity
  rw [hmb]
  exact ⟨rfl, rfl, rfl, _, rfl, rfl⟩

/-- Witness for C6: three concrete files — outside the base directory, a
schema-dump artifact, and an unparsable migration path. -/
theorem claim_C6_witness :
    processFile ctxClassify repoSchema eventFix commitFix "x/outside" = emptyFileOut ∧
    processFile ctxClassify repoSchema eventFix commitFix "db/schema.sql" = emptyFileOut ∧
    ((processFile ctxClassify repoSchema eventFix commitFix "db/bad").step =
        FileStep.skipped ∧
      (processFile ctxClassify repoSchema eventFix commitFix "db/bad").issueCalls = [] ∧
      (processFile ctxClassify repoSchema eventFix commitFix "db/bad").issuesCreated = [] ∧
      ∃ ac, (processFile ctxClassify repoSchema eventFix commitFix "db/bad").activityCalls =
          [ac] ∧ ac.level = ActivityLevel.warn) :=
  claim_C6 ctxClassify repoSchema eventFix commitFix "x/outside" "db/schema.sql"
    "db/bad" "invalid migration format" rfl rfl rfl rfl rfl rfl (fun _ => rfl)

/-- C7: a request failing request-level validation — unreadable or
malformed payload, event kind other than "push", secret-token mismatch, or
provider project-id mismatch — is answered with HTTP 400, and no file is
processed: no activity call, no issue call, no issue created. -/
theorem claim_C7 (ctx : Ctx) (req : Request)
    (h : (∃ e, ctx.readRequestBody = .error e) ∨
      (∃ b e, ctx.readRequestBody = .ok b ∧ ctx.unmarshalPushEvent b = .error e) ∨
      (∃ b ev, ctx.readRequestBody = .ok b ∧ ctx.unmarshalPushEvent b = .ok ev ∧
        ev.objectKind ≠ WebhookPush) ∨
      (∃ b ev repo0 repo, ctx.readRequestBody = .ok b ∧
        ctx.unmarshalPushEvent b = .ok ev ∧ ev.objectKind = WebhookPush ∧
        ctx.findRepository req.webhookEndpointId = .found repo0 ∧
        ctx.composeRepositoryRelationship repo0 = .ok repo ∧
        req.gitlabToken ≠ repo.webhookSecretToken) ∨
      (∃ b ev repo0 repo, ctx.readRequestBody = .ok b ∧
        ctx.unmarshalPushEvent b = .ok ev ∧ ev.objectKind = WebhookPush ∧
        ctx.findRepository req.webhookEndpointId = .found repo0 ∧
        ctx.composeRepositoryRelationship repo0 = .ok repo ∧
        req.gitlabToken = repo.webhookSecretToken ∧
        toString ev.project.id ≠ repo.externalId)) :
    (handleWebhook ctx req).response.status = 400 ∧
    (handleWebhook ctx req).activityCalls = [] ∧
    (handleWebhook ctx req).issueCalls = [] ∧
    (handleWebhook ctx req).issuesCreated = [] := by
  unfold handleWebhook
  rcases h with ⟨e, he⟩ | ⟨b, e, hb, he⟩ | ⟨b, ev, hb, hev, hkind⟩ |
    ⟨b, ev, repo0, repo, hb, hev, hkind, hfind, hcomp, htok⟩ |
    ⟨b, ev, repo0, repo, hb, hev, hkind, hfind, hcomp, htok, hproj⟩
  · simp [he, errorResult]
  · simp [hb, he, errorResult]
  · simp [hb, hev, hkind, errorResult]
  · simp [hb, hev, hkind, hfind, hcomp, htok, errorResult]
  · simp [hb, hev, hkind, hfind, hcomp, htok, hproj, errorResult]

/-- Witness for C7: a delivery whose event kind is "tag_push". -/
theorem claim_C7_witness :
    (handleWebhook ctxBadKind reqFix).response.status = 400 ∧
    (handleWebhook ctxBadKind reqFix).activityCalls = [] ∧
    (handleWebhook ctxBadKind reqFix).issueCalls = [] ∧
    (handleWebhook ctxBadKind reqFix).issuesCreated = [] :=
  claim_C7 ctxBadKind reqFix
    (Or.inr (Or.inr (Or.inl ⟨"body", { eventFix with objectKind := "tag_push" },
      rfl, rfl, by decide⟩)))

/-- C8: when an issue has been created for a file but marshalling or
persisting the INFO success activity fails, the file's processing exits
with an HTTP 500 abort; an aborted accumulator freezes both loops, so no
further file of the push event is processed; and on a single-commit,
single-file validated request the whole response is that 500 — unlike
every other per-file failure, which only skips its own file. -/
theorem claim_C8 (ctx : Ctx) (repo : Repository) (ev : WebhookPushEvent)
    (commit : Commit) (added : String) (mi : MigrationInfo) (content : String)
    (dbs : List Database) (issue : Issue)
    (hpre : strHasPrefix added repo.baseDirectory = true)
    (hschema : (repo.schemaPathTemplate != "" &&
      ctx.schemaRegexMatch (schemafilePathRegex repo.schemaPathTemplate) added) = false)
    (hparse : ctx.parseMigrationInfo added
      (filepathJoin repo.baseDirectory repo.filePathTemplate) = .ok mi)
    (hfetch : ctx.fetchFileContent added commit.id = .ok content)
    (hdbs : ctx.composeDatabaseListByFind repo.projectId mi.database = .ok dbs)
    (hne : dbs.isEmpty = false)
    (hflt : (mi.environment != "" && (filterdDatabaseList dbs mi).isEmpty) = false)
    (hamb : (groupByEnv (filterdDatabaseList dbs mi)).any
      (fun p => p.2.length > 1) = false)
    (hi : ctx.createIssue
      (resolvedIssueCreate ctx repo ev commit added mi content dbs) = .ok issue)
    (hfail : (∃ e, ctx.marshalPushPayload
        { vcsPushEvent := vcsPushEventOf ctx repo ev commit added,
          issueId := issue.id, issueName := issue.name } = .error e) ∨
      (∃ bytes e, ctx.marshalPushPayload
        { vcsPushEvent := vcsPushEventOf ctx repo ev commit added,
          issueId := issue.id, issueName := issue.name } = .ok bytes ∧
        ctx.createActivity (infoActivityCreate repo issue bytes) = .error e)) :
    (∃ body2, (processFile ctx repo ev commit added).step =
        FileStep.aborted 500 body2 ∧
      (processFile ctx repo ev commit added).issuesCreated = [issue]) ∧
    (∀ (l : List String) (c : Commit) (acc : RunAcc) (r : Nat × String),
      acc.aborted = some r → foldFiles ctx repo ev c l acc = acc) ∧
    (∀ (cs : List Commit) (acc : RunAcc) (r : Nat × String),
      acc.aborted = some r → foldCommits ctx repo ev cs acc = acc) ∧
    (∀ (req : Request) (b0 : String) (repo0 : Repository),
      ctx.readRequestBody = .ok b0 → ctx.unmarshalPushEvent b0 = .ok ev →
      ev.objectKind = WebhookPush →
      ctx.findRepository req.webhookEndpointId = .found repo0 →
      ctx.composeRepositoryRelationship repo0 = .ok repo →
      req.gitlabToken = repo.webhookSecretToken →
      toString ev.project.id = repo.externalId →
      ev.commitList = [commit] → commit.addedList = [added] →
      (handleWebhook ctx req).response.status = 500) := by
  have hres := processFile_resolved ctx repo ev commit added mi content dbs
    hpre hschema hparse hfetch hdbs hne hflt hamb
  have habort : ∃ body2, processFile ctx repo ev commit added =
      { step := FileStep.aborted 500 body2,
        activityCalls := (processFile ctx repo ev commit added).activityCalls,
        issueCalls := [resolvedIssueCreate ctx repo ev commit added mi content dbs],
        issuesCreated := [issue] } := by
    rcases hfail with ⟨e, hmf⟩ | ⟨bytes, e, hmo, haf⟩
    · refine ⟨"Failed to construct activity payload", ?_⟩
      rw [hres, issuePhase_marshalFail ctx repo _ _ _ added issue e hi hmf]
    · refine ⟨"Failed to create project activity after creating issue from repository push event: " ++
        toString issue.id, ?_⟩
      rw [hres, issuePhase_actFail ctx repo _ _ _ added issue bytes e hi hmo haf]
  obtain ⟨body2, hb2⟩ := habort
  refine ⟨⟨body2, by rw [hb2], by rw [hb2]⟩,
    fun l c acc r hacc => foldFiles_stuck ctx repo ev c l acc r hacc,
    fun cs acc r hacc => foldCommits_stuck ctx repo ev cs acc r hacc, ?_⟩
  intro req b0 repo0 h1 h2 h3 h4 h5 h6 h7 hcs hadds
  unfold handleWebhook
  rw [h1]
  simp only [h2, h3, h4, h5, h6, h7, bne_self_eq_false, Bool.false_eq_true,
    if_false, ite_false]
  rw [hcs, foldCommits_cons ctx repo ev commit [] emptyAcc rfl, hadds,
    foldFiles_cons ctx repo ev commit added [] emptyAcc rfl, hb2]
  rfl

/-- Witness for C8: the fixtures with every payload marshalling failing. -/
theorem claim_C8_witness :
    (∃ body2, (processFile ctxMarshalFail repoFix eventFix commitFix "db/v1__db1").step =
        FileStep.aborted 500 body2 ∧
      (processFile ctxMarshalFail repoFix eventFix commitFix "db/v1__db1").issuesCreated =
        [{ id := 7, name := "T" }]) ∧
    (∀ (l : List String) (c : Commit) (acc : RunAcc) (r : Nat × String),
      acc.aborted = some r → foldFiles ctxMarshalFail repoFix eventFix c l acc = acc) ∧
    (∀ (cs : List Commit) (acc : RunAcc) (r : Nat × String),
      acc.aborted = some r → foldCommits ctxMarshalFail repoFix eventFix cs acc = acc) ∧
    (∀ (req : Request) (b0 : String) (repo0 : Repository),
      ctxMarshalFail.readRequestBody = .ok b0 →
      ctxMarshalFail.unmarshalPushEvent b0 = .ok eventFix →
      eventFix.objectKind = WebhookPush →
      ctxMarshalFail.findRepository req.webhookEndpointId = .found repo0 →
      ctxMarshalFail.composeRepositoryRelationship repo0 = .ok repoFix →
      req.gitlabToken = repoFix.webhookSecretToken →
      toString eventFix.project.id = repoFix.externalId →
      eventFix.commitList = [commitFix] → commitFix.addedList = ["db/v1__db1"] →
      (handleWebhook ctxMarshalFail req).response.status = 500) :=
  claim_C8 ctxMarshalFail repoFix eventFix commitFix "db/v1__db1" miFix
    "CREATE TABLE t (c INT);" [db1] { id := 7, name := "T" }
    rfl rfl rfl rfl rfl rfl rfl rfl rfl (Or.inl ⟨"marshal failed", rfl⟩)

/-- Counterexample to C9 as stated: when the issue-creation call fails on
a file that resolved cleanly, the file is skipped and the request goes on,
but NO activity-creation call of any level is made — the claim's "it
produces a WARN audit activity" is false on the code, which only logs. -/
theorem claim_C9_counterexample :
    (processFile ctxIssueFail repoFix eventFix commitFix "db/v1__db1").issueCalls.length = 1 ∧
    (processFile ctxIssueFail repoFix eventFix commitFix "db/v1__db1").activityCalls = [] ∧
    (processFile ctxIssueFail repoFix eventFix commitFix "db/v1__db1").step =
      FileStep.skipped ∧
    (processFile ctxIssueFail repoFix eventFix commitFix "db/v1__db1").issuesCreated = [] :=
  ⟨rfl, rfl, rfl, rfl⟩

/-- C9 (amended): issue-creation failure is local to the file — it is
logged only and itself produces no audit activity of any level (the file's
activity calls are exactly the WARN records of failing approval-policy
lookups from the same pass, hence none when every policy lookup succeeds:
a third silent condition beside the generated-artifact match and the
ambiguity skip); no issue or pipeline state is left behind, the file is
skipped, processing continues with the next file (the accumulator never
turns aborted), and the HTTP request does not fail: a validated
single-commit, single-file delivery still answers 200 with an empty
body. -/
theorem claim_C9 (ctx : Ctx) (repo : Repository) (ev : WebhookPushEvent)
    (commit : Commit) (added : String) (mi : MigrationInfo) (content : String)
    (dbs : List Database) (e : String)
    (hpre : strHasPrefix added repo.baseDirectory = true)
    (hschema : (repo.schemaPathTemplate != "" &&
      ctx.schemaRegexMatch (schemafilePathRegex repo.schemaPathTemplate) added) = false)
    (hparse : ctx.parseMigrationInfo added
      (filepathJoin repo.baseDirectory repo.filePathTemplate) = .ok mi)
    (hfetch : ctx.fetchFileContent added commit.id = .ok content)
    (hdbs : ctx.composeDatabaseListByFind repo.projectId mi.database = .ok dbs)
    (hne : dbs.isEmpty = false)
    (hflt : (mi.environment != "" && (filterdDatabaseList dbs mi).isEmpty) = false)
    (hamb : (groupByEnv (filterdDatabaseList dbs mi)).any
      (fun p => p.2.length > 1) = false)
    (hi : ctx.createIssue
      (resolvedIssueCreate ctx repo ev commit added mi content dbs) = .error e) :
    processFile ctx repo ev commit added =
      { step := FileStep.skipped,
        activityCalls := (passOf ctx repo ev commit added mi dbs).warnCalls,
        issueCalls := [resolvedIssueCreate ctx repo ev commit added mi content dbs],
        issuesCreated := [] } ∧
    ((∀ e2, isOk (ctx.getPipelineApprovalPolicy e2) = true) →
      (processFile ctx repo ev commit added).activityCalls = []) ∧
    (∀ acc : RunAcc,
      (stepAcc acc (processFile ctx repo ev commit added)).aborted = acc.aborted) ∧
    (∀ (req : Request) (b0 : String) (repo0 : Repository),
      ctx.readRequestBody = .ok b0 → ctx.unmarshalPushEvent b0 = .ok ev →
      ev.objectKind = WebhookPush →
      ctx.findRepository req.webhookEndpointId = .found repo0 →
      ctx.composeRepositoryRelationship repo0 = .ok repo →
      req.gitlabToken = repo.webhookSecretToken →
      toString ev.project.id = repo.externalId →
      ev.commitList = [commit] → commit.addedList = [added] →
      (handleWebhook ctx req).response = { status := 200, body := "" }) := by
  have hmain : processFile ctx repo ev commit added =
      { step := FileStep.skipped,
        activityCalls := (passOf ctx repo ev commit added mi dbs).warnCalls,
        issueCalls := [resolvedIssueCreate ctx repo ev commit added mi content dbs],
        issuesCreated := [] } := by
    rw [processFile_resolved ctx repo ev commit added mi content dbs
        hpre hschema hparse hfetch hdbs hne hflt hamb,
      issuePhase_issueFail ctx repo _ _ _ added e hi]
  refine ⟨hmain, fun hpol => ?_, fun acc => ?_, ?_⟩
  · rw [hmain]
    unfold passOf
    exact loadPolicies_warnCalls ctx _ hpol _
  · rw [stepAcc_aborted, hmain]
  · intro req b0 repo0 h1 h2 h3 h4 h5 h6 h7 hcs hadds
    unfold handleWebhook
    rw [h1]
    simp only [h2, h3, h4, h5, h6, h7, bne_self_eq_false, Bool.false_eq_true,
      if_false, ite_false]
    rw [hcs, foldCommits_cons ctx repo ev commit [] emptyAcc rfl, hadds,
      foldFiles_cons ctx repo ev commit added [] emptyAcc rfl, hmain]
    rfl

/-- Witness for C9 (amended): the fixtures with a failing issue backend —
file skipped with no activity at all, accumulator never aborted, and the
whole delivery still answers 200 with an empty body. -/
theorem claim_C9_witness :
    processFile ctxIssueFail repoFix eventFix commitFix "db/v1__db1" =
      { step := FileStep.skipped,
        activityCalls := (passOf ctxIssueFail repoFix eventFix commitFix
          "db/v1__db1" miFix [db1]).warnCalls,
        issueCalls := [resolvedIssueCreate ctxIssueFail repoFix eventFix commitFix
          "db/v1__db1" miFix "CREATE TABLE t (c INT);" [db1]],
        issuesCreated := [] } ∧
    (processFile ctxIssueFail repoFix eventFix commitFix "db/v1__db1").activityCalls = [] ∧
    (∀ acc : RunAcc,
      (stepAcc acc (processFile ctxIssueFail repoFix eventFix commitFix "db/v1__db1")).aborted =
        acc.aborted) ∧
    (handleWebhook ctxIssueFail reqFix).response = { status := 200, body := "" } :=
  have H := claim_C9 ctxIssueFail repoFix eventFix commitFix "db/v1__db1" miFix
    "CREATE TABLE t (c INT);" [db1] "issue backend down"
    rfl rfl rfl rfl rfl rfl rfl rfl rfl
  ⟨H.1, H.2.1 (fun _ => rfl), H.2.2.1,
    H.2.2.2 reqFix "body" repoFix rfl rfl rfl rfl rfl rfl rfl rfl rfl⟩

/-! Frame lemmas: the results of the WARN-activity oracles never influence
anything but the list of recorded activity calls. -/

theorem vcsPushEventOf_frame (ctx ctx' : Ctx)
    (hts : ctx.parseTimestamp = ctx'.parseTimestamp) (repo : Repository)
    (ev : WebhookPushEvent) (commit : Commit) (added : String) :
    vcsPushEventOf ctx repo ev commit added =
      vcsPushEventOf ctx' repo ev commit added := by
  unfold vcsPushEventOf
  rw [hts]

theorem pappUpd_frame (ctx ctx' : Ctx)
    (hpp : ctx.getPipelineApprovalPolicy = ctx'.getPipelineApprovalPolicy) :
    pappUpd ctx = pappUpd ctx' := by
  funext papp d
  unfold pappUpd
  rw [hpp]

theorem passOf_papp_frame (ctx ctx' : Ctx)
    (hpp : ctx.getPipelineApprovalPolicy = ctx'.getPipelineApprovalPolicy)
    (repo : Repository) (ev ev' : WebhookPushEvent) (commit commit' : Commit)
    (added added' : String) (mi : MigrationInfo) (dbs : List Database) :
    (passOf ctx repo ev commit added mi dbs).pipelineApprovalByEnv =
      (passOf ctx' repo ev' commit' added' mi dbs).pipelineApprovalByEnv := by
  unfold passOf
  rw [loadPolicies_papp, loadPolicies_papp, pappUpd_frame ctx ctx' hpp]

theorem resolvedIssueCreate_frame (ctx ctx' : Ctx)
    (hts : ctx.parseTimestamp = ctx'.parseTimestamp)
    (hpp : ctx.getPipelineApprovalPolicy = ctx'.getPipelineApprovalPolicy)
    (repo : Repository) (ev : WebhookPushEvent) (commit : Commit)
    (added : String) (mi : MigrationInfo) (content : String)
    (dbs : List Database) :
    resolvedIssueCreate ctx repo ev commit added mi content dbs =
      resolvedIssueCreate ctx' repo ev commit added mi content dbs := by
  unfold resolvedIssueCreate
  rw [passOf_papp_frame ctx ctx' hpp repo ev ev commit commit added added mi dbs,
    vcsPushEventOf_frame ctx ctx' hts repo ev commit added]

theorem issuePhase_frame (ctx ctx' : Ctx)
    (hci : ctx.createIssue = ctx'.createIssue)
    (hm : ∀ p, p.issueId ≠ 0 →
      ctx.marshalPushPayload p = ctx'.marshalPushPayload p)
    (ha : ∀ ac, ac.level = ActivityLevel.info →
      ctx.createActivity ac = ctx'.createActivity ac)
    (hiz : ∀ ic issue, ctx.createIssue ic = .ok issue → issue.id ≠ 0)
    (repo : Repository) (vcs : VCSPushEvent) (w w' : List ActivityCreate)
    (ic : IssueCreate) (added : String) :
    (issuePhase ctx repo vcs w ic added).step =
      (issuePhase ctx' repo vcs w' ic added).step ∧
    (issuePhase ctx repo vcs w ic added).issueCalls =
      (issuePhase ctx' repo vcs w' ic added).issueCalls ∧
    (issuePhase ctx repo vcs w ic added).issuesCreated =
      (issuePhase ctx' repo vcs w' ic added).issuesCreated := by
  unfold issuePhase
  rw [← hci]
  cases hcase : ctx.createIssue ic with
  | error e => exact ⟨rfl, rfl, rfl⟩
  | ok issue =>
    have hid : issue.id ≠ 0 := hiz ic issue hcase
    have hmeq := hm
      { vcsPushEvent := vcs, issueId := issue.id, issueName := issue.name } hid
    dsimp only
    rw [← hmeq]
    cases hmc : ctx.marshalPushPayload
        { vcsPushEvent := vcs, issueId := issue.id, issueName := issue.name } with
    | error e => exact ⟨rfl, rfl, rfl⟩
    | ok bytes =>
      have haeq := ha (infoActivityCreate repo issue bytes) rfl
      dsimp only
      rw [← haeq]
      cases hac : ctx.createActivity (infoActivityCreate repo issue bytes) with
      | error e => exact ⟨rfl, rfl, rfl⟩
      | ok u => exact ⟨rfl, rfl, rfl⟩

theorem processFile_frame (ctx ctx' : Ctx)
    (hts : ctx.parseTimestamp = ctx'.parseTimestamp)
    (hsm : ctx.schemaRegexMatch = ctx'.schemaRegexMatch)
    (hpm : ctx.parseMigrationInfo = ctx'.parseMigrationInfo)
    (hfc : ctx.fetchFileContent = ctx'.fetchFileContent)
    (hdl : ctx.composeDatabaseListByFind = ctx'.composeDatabaseListByFind)
    (hpp : ctx.getPipelineApprovalPolicy = ctx'.getPipelineApprovalPolicy)
    (hci : ctx.createIssue = ctx'.createIssue)
    (hm : ∀ p, p.issueId ≠ 0 →
      ctx.marshalPushPayload p = ctx'.marshalPushPayload p)
    (ha : ∀ ac, ac.level = ActivityLevel.info →
      ctx.createActivity ac = ctx'.createActivity ac)
    (hiz : ∀ ic issue, ctx.createIssue ic = .ok issue → issue.id ≠ 0)
    (repo : Repository) (ev : WebhookPushEvent) (commit : Commit)
    (added : String) :
    (processFile ctx repo ev commit added).step =
      (processFile ctx' repo ev commit added).step ∧
    (processFile ctx repo ev commit added).issueCalls =
      (processFile ctx' repo ev commit added).issueCalls ∧
    (processFile ctx repo ev commit added).issuesCreated =
      (processFile ctx' repo ev commit added).issuesCreated := by
  cases hpre : strHasPrefix added repo.baseDirectory with
  | false =>
    rw [processFile_outside ctx repo ev commit added hpre,
      processFile_outside ctx' repo ev commit added hpre]
    exact ⟨rfl, rfl, rfl⟩
  | true =>
    cases hschema : (repo.schemaPathTemplate != "" &&
        ctx.schemaRegexMatch (schemafilePathRegex repo.schemaPathTemplate) added) with
    | true =>
      have hschema' : (repo.schemaPathTemplate != "" &&
          ctx'.schemaRegexMatch (schemafilePathRegex repo.schemaPathTemplate) added) = true := by
        rw [← hsm]; exact hschema
      rw [processFile_schemaMatch ctx repo ev commit added hpre hschema,
        processFile_schemaMatch ctx' repo ev commit added hpre hschema']
      exact ⟨rfl, rfl, rfl⟩
    | false =>
      have hschema' : (repo.schemaPathTemplate != "" &&
          ctx'.schemaRegexMatch (schemafilePathRegex repo.schemaPathTemplate) added) = false := by
        rw [← hsm]; exact hschema
      cases hparse : ctx.parseMigrationInfo added
          (filepathJoin repo.baseDirectory repo.filePathTemplate) with
      | error e =>
        have hparse' := hpm ▸ hparse
        rw [processFile_parseFail ctx repo ev commit added e hpre hschema hparse,
          processFile_parseFail ctx' repo ev commit added e hpre hschema' hparse']
        exact ⟨rfl, rfl, rfl⟩
      | ok mi =>
        have hparse' := hpm ▸ hparse
        cases hfetch : ctx.fetchFileContent added commit.id with
        | error e =>
          have hfetch' := hfc ▸ hfetch
          rw [processFile_fetchFail ctx repo ev commit added mi e
              hpre hschema hparse hfetch,
            processFile_fetchFail ctx' repo ev commit added mi e
              hpre hschema' hparse' hfetch']
          exact ⟨rfl, rfl, rfl⟩
        | ok content =>
          have hfetch' := hfc ▸ hfetch
          cases hdbs : ctx.composeDatabaseListByFind repo.projectId mi.database with
          | error e =>
            have hdbs' := hdl ▸ hdbs
            rw [processFile_dbFail ctx repo ev commit added mi content e
                hpre hschema hparse hfetch hdbs,
              processFile_dbFail ctx' repo ev commit added mi content e
                hpre hschema' hparse' hfetch' hdbs']
            exact ⟨rfl, rfl, rfl⟩
          | ok dbs =>
            have hdbs' := hdl ▸ hdbs
            cases hne : dbs.isEmpty with
            | true =>
              have hnil : dbs = [] := by
                cases dbs with
                | nil => rfl
                | cons x xs => simp [List.isEmpty] at hne
              subst hnil
              rw [processFile_dbEmpty ctx repo ev commit added mi content
                  hpre hschema hparse hfetch hdbs,
                processFile_dbEmpty ctx' repo ev commit added mi content
                  hpre hschema' hparse' hfetch' hdbs']
              exact ⟨rfl, rfl, rfl⟩
            | false =>
              cases hflt : (mi.environment != "" &&
                  (filterdDatabaseList dbs mi).isEmpty) with
              | true =>
                rw [processFile_filterEmpty ctx repo ev commit added mi content dbs
                    hpre hschema hparse hfetch hdbs hne hflt,
                  processFile_filterEmpty ctx' repo ev commit added mi content dbs
                    hpre hschema' hparse' hfetch' hdbs' hne hflt]
                exact ⟨rfl, rfl, rfl⟩
              | false =>
                cases hamb : (groupByEnv (filterdDatabaseList dbs mi)).any
                    (fun p => p.2.length > 1) with
                | true =>
                  rw [processFile_ambiguous ctx repo ev commit added mi content dbs
                      hpre hschema hparse hfetch hdbs hne hflt hamb,
                    processFile_ambiguous ctx' repo ev commit added mi content dbs
                      hpre hschema' hparse' hfetch' hdbs' hne hflt hamb]
                  exact ⟨rfl, rfl, rfl⟩
                | false =>
                  rw [processFile_resolved ctx repo ev commit added mi content dbs
                      hpre hschema hparse hfetch hdbs hne hflt hamb,
                    processFile_resolved ctx' repo ev commit added mi content dbs
                      hpre hschema' hparse' hfetch' hdbs' hne hflt hamb,
                    ← resolvedIssueCreate_frame ctx ctx' hts hpp repo ev commit
                      added mi content dbs,
                    ← vcsPushEventOf_frame ctx ctx' hts repo ev commit added]
                  exact issuePhase_frame ctx ctx' hci hm ha hiz repo
                    (vcsPushEventOf ctx repo ev commit added)
                    (passOf ctx repo ev commit added mi dbs).warnCalls
                    (passOf ctx' repo ev commit added mi dbs).warnCalls
                    (resolvedIssueCreate ctx repo ev commit added mi content dbs)
                    added

theorem stepAcc_frame (acc acc' : RunAcc) (o o' : FileOut)
    (hrel : accRel acc acc') (hs : o.step = o'.step)
    (hic : o.issueCalls = o'.issueCalls)
    (hisc : o.issuesCreated = o'.issuesCreated) :
    accRel (stepAcc acc o) (stepAcc acc' o') := by
  obtain ⟨h1, h2, h3, h4⟩ := hrel
  refine ⟨?_, ?_, ?_, ?_⟩
  · rw [stepAcc_messages, stepAcc_messages, h1, hs]
  · rw [stepAcc_issueCalls, stepAcc_issueCalls, h2, hic]
  · rw [stepAcc_issuesCreated, stepAcc_issuesCreated, h3, hisc]
  · rw [stepAcc_aborted, stepAcc_aborted, h4, hs]

theorem foldFiles_frame (ctx ctx' : Ctx) (repo : Repository)
    (ev : WebhookPushEvent) (commit : Commit)
    (hpf : ∀ (c : Commit) (a : String),
      (processFile ctx repo ev c a).step = (processFile ctx' repo ev c a).step ∧
      (processFile ctx repo ev c a).issueCalls =
        (processFile ctx' repo ev c a).issueCalls ∧
      (processFile ctx repo ev c a).issuesCreated =
        (processFile ctx' repo ev c a).issuesCreated) :
    ∀ (l : List String) (acc acc' : RunAcc), accRel acc acc' →
    accRel (foldFiles ctx repo ev commit l acc)
      (foldFiles ctx' repo ev commit l acc') := by
  intro l
  induction l with
  | nil => intro acc acc' h; exact h
  | cons a rest ih =>
    intro acc acc' hrel
    cases habs : acc.aborted with
    | some r =>
      have habs' : acc'.aborted = some r := by
        rw [← hrel.2.2.2]; exact habs
      rw [foldFiles_stuck ctx repo ev commit _ acc r habs,
        foldFiles_stuck ctx' repo ev commit _ acc' r habs']
      exact hrel
    | none =>
      have habs' : acc'.aborted = none := by
        rw [← hrel.2.2.2]; exact habs
      rw [foldFiles_cons ctx repo ev commit a rest acc habs,
        foldFiles_cons ctx' repo ev commit a rest acc' habs']
      exact ih _ _ (stepAcc_frame acc acc' _ _ hrel (hpf commit a).1
        (hpf commit a).2.1 (hpf commit a).2.2)

theorem foldCommits_frame (ctx ctx' : Ctx) (repo : Repository)
    (ev : WebhookPushEvent)
    (hpf : ∀ (c : Commit) (a : String),
      (processFile ctx repo ev c a).step = (processFile ctx' repo ev c a).step ∧
      (processFile ctx repo ev c a).issueCalls =
        (processFile ctx' repo ev c a).issueCalls ∧
      (processFile ctx repo ev c a).issuesCreated =
        (processFile ctx' repo ev c a).issuesCreated) :
    ∀ (cs : List Commit) (acc acc' : RunAcc), accRel acc acc' →
    accRel (foldCommits ctx repo ev cs acc)
      (foldCommits ctx' repo ev cs acc') := by
  intro cs
  induction cs with
  | nil => intro acc acc' h; exact h
  | cons c rest ih =>
    intro acc acc' hrel
    cases habs : acc.aborted with
    | some r =>
      have habs' : acc'.aborted = some r := by
        rw [← hrel.2.2.2]; exact habs
      rw [foldCommits_stuck ctx repo ev _ acc r habs,
        foldCommits_stuck ctx' repo ev _ acc' r habs']
      exact hrel
    | none =>
      have habs' : acc'.aborted = none := by
        rw [← hrel.2.2.2]; exact habs
      rw [foldCommits_cons ctx repo ev c rest acc habs,
        foldCommits_cons ctx' repo ev c rest acc' habs']
      exact ih _ _ (foldFiles_frame ctx ctx' repo ev c hpf c.addedList acc acc' hrel)

/-- C10: a failure while emitting a WARN ignore activity — whether the
payload marshalling or the activity-creation call — is logged only and has
no other observable effect.  Two deliveries through contexts that agree on
everything except the marshalling of ignored-file payloads (issue id 0)
and the persisting of WARN-level activities produce the same per-file
step, the same issue-creation calls, the same created issues, and the
same HTTP status and response body; a failed ignore-activity never
escalates to a request-level error. -/
theorem claim_C10 (ctx ctx' : Ctx)
    (hrb : ctx.readRequestBody = ctx'.readRequestBody)
    (hum : ctx.unmarshalPushEvent = ctx'.unmarshalPushEvent)
    (hfr : ctx.findRepository = ctx'.findRepository)
    (hcr : ctx.composeRepositoryRelationship = ctx'.composeRepositoryRelationship)
    (hts : ctx.parseTimestamp = ctx'.parseTimestamp)
    (hsm : ctx.schemaRegexMatch = ctx'.schemaRegexMatch)
    (hpm : ctx.parseMigrationInfo = ctx'.parseMigrationInfo)
    (hfc : ctx.fetchFileContent = ctx'.fetchFileContent)
    (hdl : ctx.composeDatabaseListByFind = ctx'.composeDatabaseListByFind)
    (hpp : ctx.getPipelineApprovalPolicy = ctx'.getPipelineApprovalPolicy)
    (hci : ctx.createIssue = ctx'.createIssue)
    (hm : ∀ p, p.issueId ≠ 0 →
      ctx.marshalPushPayload p = ctx'.marshalPushPayload p)
    (ha : ∀ ac, ac.level = ActivityLevel.info →
      ctx.createActivity ac = ctx'.createActivity ac)
    (hiz : ∀ ic issue, ctx.createIssue ic = .ok issue → issue.id ≠ 0) :
    (∀ (repo : Repository) (ev : WebhookPushEvent) (commit : Commit)
      (added : String),
      (processFile ctx repo ev commit added).step =
        (processFile ctx' repo ev commit added).step ∧
      (processFile ctx repo ev commit added).issueCalls =
        (processFile ctx' repo ev commit added).issueCalls ∧
      (processFile ctx repo ev commit added).issuesCreated =
        (processFile ctx' repo ev commit added).issuesCreated) ∧
    (∀ req : Request,
      (handleWebhook ctx req).response = (handleWebhook ctx' req).response ∧
      (handleWebhook ctx req).issueCalls = (handleWebhook ctx' req).issueCalls ∧
      (handleWebhook ctx req).issuesCreated =
        (handleWebhook ctx' req).issuesCreated) := by
  have hpf := fun (repo : Repository) (ev : WebhookPushEvent) (c : Commit)
    (a : String) =>
    processFile_frame ctx ctx' hts hsm hpm hfc hdl hpp hci hm ha hiz repo ev c a
  refine ⟨fun repo ev commit added => hpf repo ev commit added, fun req => ?_⟩
  unfold handleWebhook
  rw [← hrb, ← hum, ← hfr, ← hcr]
  cases hb : ctx.readRequestBody with
  | error e => exact ⟨rfl, rfl, rfl⟩
  | ok b =>
    dsimp only
    cases hu : ctx.unmarshalPushEvent b with
    | error e => exact ⟨rfl, rfl, rfl⟩
    | ok ev =>
      dsimp only
      cases hk : (ev.objectKind != WebhookPush) with
      | true => simp [hk]
      | false =>
        simp only [hk, Bool.false_eq_true, if_false, ite_false]
        cases hf : ctx.findRepository req.webhookEndpointId with
        | notFound => exact ⟨rfl, rfl, rfl⟩
        | err e => exact ⟨rfl, rfl, rfl⟩
        | found repo0 =>
          dsimp only
          cases hc : ctx.composeRepositoryRelationship repo0 with
          | error e => exact ⟨rfl, rfl, rfl⟩
          | ok repo =>
            dsimp only
            cases ht : (req.gitlabToken != repo.webhookSecretToken) with
            | true => simp [ht]
            | false =>
              simp only [ht, Bool.false_eq_true, if_false, ite_false]
              cases hpj : (toString ev.project.id != repo.externalId) with
              | true => simp [hpj]
              | false =>
                simp only [hpj, Bool.false_eq_true, if_false, ite_false]
                have hrel := foldCommits_frame ctx ctx' repo ev
                  (hpf repo ev) ev.commitList emptyAcc emptyAcc ⟨rfl, rfl, rfl, rfl⟩
                obtain ⟨hm1, hm2, hm3, hm4⟩ := hrel
                cases habs : (foldCommits ctx repo ev ev.commitList emptyAcc).aborted with
                | some r =>
                  have habs' : (foldCommits ctx' repo ev ev.commitList emptyAcc).aborted =
                      some r := by
                    rw [← hm4]; exact habs
                  obtain ⟨s, b2⟩ := r
                  simp only [habs, habs']
                  exact ⟨by simp, hm2, hm3⟩
                | none =>
                  have habs' : (foldCommits ctx' repo ev ev.commitList emptyAcc).aborted =
                      none := by
                    rw [← hm4]; exact habs
                  simp only [habs, habs']
                  exact ⟨by simp [hm1], hm2, hm3⟩

/-- Witness for C10: the all-success fixtures against the variant whose
ignored-file payload marshalling always fails. -/
theorem claim_C10_witness :
    ((processFile ctxWarnMarshalFail repoFix eventFix commitFix "db/v1__db1").step =
      (processFile ctxFix repoFix eventFix commitFix "db/v1__db1").step ∧
    (processFile ctxWarnMarshalFail repoFix eventFix commitFix "db/v1__db1").issueCalls =
      (processFile ctxFix repoFix eventFix commitFix "db/v1__db1").issueCalls ∧
    (processFile ctxWarnMarshalFail repoFix eventFix commitFix "db/v1__db1").issuesCreated =
      (processFile ctxFix repoFix eventFix commitFix "db/v1__db1").issuesCreated) ∧
    ((handleWebhook ctxWarnMarshalFail reqFix).response =
      (handleWebhook ctxFix reqFix).response ∧
    (handleWebhook ctxWarnMarshalFail reqFix).issueCalls =
      (handleWebhook ctxFix reqFix).issueCalls ∧
    (handleWebhook ctxWarnMarshalFail reqFix).issuesCreated =
      (handleWebhook ctxFix reqFix).issuesCreated) :=
  have H := claim_C10 ctxWarnMarshalFail ctxFix rfl rfl rfl rfl rfl rfl rfl rfl
    rfl rfl rfl
    (fun p hp => by
      show (if p.issueId == 0 then Except.error "marshal failed"
        else Except.ok "payload") = Except.ok "payload"
      rw [if_neg]
      simp only [beq_iff_eq]
      exact hp)
    (fun ac _ => rfl)
    (fun ic issue h => by
      cases h
      simp)
  ⟨H.1 repoFix eventFix commitFix "db/v1__db1", H.2 reqFix⟩

end Bytebase
